import Mathlib

/-!
# PAW3395 optical sensor driver (`src/paw3395.c`)

A shallow embedding of the driver's asynchronous initialisation chain, of its
sample / accumulate / report pipeline, of the interrupt callbacks, of the attribute entry
point and of the activity listener, followed by the properties proved about them.

Conventions of the embedding

* C `int` return codes are `Int`; `0` is success, anything else is an error.
* The vendor library (`paw3395_lib_*`), the GPIO layer and the input subsystem are external:
  their results are inputs (`Transport`, `Platform`), and every call made to them is
  recorded, in program order, in a list of `Effect`s.
* `int16_t` and `int64_t` values are `Int`s kept in range by `wrap16` / `wrap64`
  (two's complement) at each conversion or arithmetic step of the source.
* Compile-time switches (`CONFIG_PAW3395_*`) are the fields of `Kconfig`; the constants of
  the vendor header that the file includes but does not define are the fields of `Header`.
-/

namespace Paw3395

/-! ## Constants and machine integers -/

/-- Zephyr errno `EIO`. -/
def EIO : Int := 5

/-- Zephyr errno `EBUSY`. -/
def EBUSY : Int := 16

/-- Zephyr errno `ENODEV`. -/
def ENODEV : Int := 19

/-- Zephyr errno `ENOTSUP`. -/
def ENOTSUP : Int := 134

/-- Lower bound of `int16_t`. -/
def INT16_MIN : Int := -32768

/-- Upper bound of `int16_t`. -/
def INT16_MAX : Int := 32767

/-- Conversion of an integer to `int16_t` (two's complement wrap-around). -/
def wrap16 (v : Int) : Int := (v + 32768) % 65536 - 32768

/-- Conversion of an integer to `int64_t` (two's complement wrap-around). -/
def wrap64 (v : Int) : Int :=
  (v + 9223372036854775808) % 18446744073709551616 - 9223372036854775808

/-- Zephyr `CLAMP(val, low, high)`:
`((val) <= (low)) ? (low) : MIN(val, high)` with `MIN(a, b) = (a < b) ? a : b`. -/
def CLAMP (val low high : Int) : Int :=
  if val ≤ low then low else if val < high then val else high

/-- Zephyr `sys_get_le16(src)`: `((uint16_t)src[1] << 8) | src[0]` on two `uint8_t`. -/
def sys_get_le16 (src0 src1 : Nat) : Nat :=
  (((src1 % 256) <<< 8) ||| (src0 % 256)) % 65536

/-! ## Configuration and state -/

/-- The `CONFIG_PAW3395_*` build options read by the driver. -/
structure Kconfig where
  INIT_POWER_UP_EXTRA_DELAY_MS : Int
  REPORT_INTERVAL_MIN : Int
  SWAP_XY : Bool
  INVERT_X : Bool
  INVERT_Y : Bool
deriving DecidableEq, Repr

/-- Constants of the vendor header `paw3395/include/paw3395.h` used by the driver: the
offsets `PAW3395_DX_POS` and `PAW3395_DY_POS` of the motion fields in the burst buffer. -/
structure Header where
  DX_POS : Nat
  DY_POS : Nat
deriving DecidableEq, Repr

/-- The fields of `struct pixart_config` that the driver reads. -/
structure pixart_config where
  cpi : Nat
  evt_type : Nat
  x_input_code : Nat
  y_input_code : Nat
  force_awake : Bool
deriving DecidableEq, Repr

/-- The fields of `struct pixart_data` that the driver reads or writes. -/
structure pixart_data where
  ready : Bool
  async_init_step : Nat
  err : Int
deriving DecidableEq, Repr

/-- The function-local `static` variables of `paw3395_report_data`. -/
structure report_statics where
  dx : Int
  dy : Int
  last_smp_time : Int
  last_rpt_time : Int
deriving DecidableEq, Repr

/-- Calls that leave the driver, in the order they are made. -/
inductive Effect where
  | lib_power_up_reset
  | lib_verify_product_id
  | lib_power_up_init_regs
  | lib_clear_motion_pin_state
  | lib_set_performance (enabled : Bool)
  | lib_set_cpi (cpi : Nat)
  | lib_motion_burst_read
  | gpio_pin_interrupt_configure (en : Bool)
  | k_work_schedule (ms : Int)
  | k_work_submit
  | input_report (type code : Nat) (value : Int) (sync : Bool)
deriving DecidableEq, Repr

/-- What the external sensor library and the interrupt pin answer during one run of a
driver function: the return code of each primitive, and for the burst read the bytes it
leaves in the buffer (index to byte). -/
structure Transport where
  power_up_reset : Int
  verify_product_id : Int
  power_up_init_regs : Int
  clear_motion_pin_state : Int
  set_performance : Bool → Int
  set_cpi : Nat → Int
  motion_burst_read : Int × (Nat → Nat)
  interrupt_configure : Bool → Int

/-- What the GPIO layer answers during `paw3395_init`. -/
structure Platform where
  cs_port_ready : Bool
  cs_pin_configure : Int
  irq_port_ready : Bool
  irq_pin_configure : Int
  irq_add_callback : Int
deriving DecidableEq, Repr

/-! ## Initialisation -/

/-- Member of `enum async_init_step`. -/
def ASYNC_INIT_STEP_POWER_UP : Nat := 0

/-- Member of `enum async_init_step`. -/
def ASYNC_INIT_STEP_FW_LOAD_START : Nat := 1

/-- Member of `enum async_init_step`. -/
def ASYNC_INIT_STEP_CONFIGURE : Nat := 2

/-- Member of `enum async_init_step`: the end flag. -/
def ASYNC_INIT_STEP_COUNT : Nat := 3

/-- The table `async_init_delay[ASYNC_INIT_STEP_COUNT]`; `none` outside the table. -/
def async_init_delay (k : Kconfig) : Nat → Option Int
  | 0 => some (50 + k.INIT_POWER_UP_EXTRA_DELAY_MS)
  | 1 => some 5
  | 2 => some 1
  | _ => none

/-- Source function `paw3395_async_init_fw_load`. -/
def paw3395_async_init_fw_load (t : Transport) : Int × List Effect :=
  let err := t.verify_product_id
  if err ≠ 0 then (- EIO, [.lib_verify_product_id])
  else
    let err := t.power_up_init_regs
    if err ≠ 0 then (err, [.lib_verify_product_id, .lib_power_up_init_regs])
    else
      let err := t.clear_motion_pin_state
      if err ≠ 0 then
        (err, [.lib_verify_product_id, .lib_power_up_init_regs, .lib_clear_motion_pin_state])
      else
        (err, [.lib_verify_product_id, .lib_power_up_init_regs, .lib_clear_motion_pin_state])

/-- Source function `paw3395_set_performance`. -/
def paw3395_set_performance (config : pixart_config) (t : Transport) (enabled : Bool) :
    Int × List Effect :=
  if config.force_awake then
    let err := t.set_performance enabled
    if err ≠ 0 then (err, [.lib_set_performance enabled])
    else (err, [.lib_set_performance enabled])
  else (0, [])

/-- Source function `paw3395_set_interrupt`. -/
def paw3395_set_interrupt (t : Transport) (en : Bool) : Int × List Effect :=
  (t.interrupt_configure en, [.gpio_pin_interrupt_configure en])

/-- Source function `paw3395_async_init_power_up`. -/
def paw3395_async_init_power_up (t : Transport) : Int × List Effect :=
  let err := t.power_up_reset
  if err ≠ 0 then (- EIO, [.lib_power_up_reset])
  else (err, [.lib_power_up_reset])

/-- Source function `paw3395_async_init_configure`: the result of
`paw3395_set_performance` is stored in `err` and then overwritten by the result of
`paw3395_lib_set_cpi`. -/
def paw3395_async_init_configure (config : pixart_config) (t : Transport) :
    Int × List Effect :=
  let perf := paw3395_set_performance config t true
  let err := t.set_cpi config.cpi
  if err < 0 then (err, perf.2 ++ [.lib_set_cpi config.cpi])
  else (err, perf.2 ++ [.lib_set_cpi config.cpi])

/-- The table `async_init_fn[ASYNC_INIT_STEP_COUNT]`; `none` outside the table. -/
def async_init_fn : Nat → Option (pixart_config → Transport → Int × List Effect)
  | 0 => some (fun _ t => paw3395_async_init_power_up t)
  | 1 => some (fun _ t => paw3395_async_init_fw_load t)
  | 2 => some paw3395_async_init_configure
  | _ => none

/-- Source function `paw3395_async_init`, the handler of `init_work`. The result is `none`
when a table is indexed outside its bounds. -/
def paw3395_async_init (k : Kconfig) (config : pixart_config) (t : Transport)
    (data : pixart_data) : Option (pixart_data × List Effect) :=
  match async_init_fn data.async_init_step with
  | none => none
  | some fn =>
    let r := fn config t
    let data := { data with err := r.1 }
    if data.err ≠ 0 then some (data, r.2)
    else
      let data := { data with async_init_step := data.async_init_step + 1 }
      if data.async_init_step = ASYNC_INIT_STEP_COUNT then
        let data := { data with ready := true }
        some (data, r.2 ++ (paw3395_set_interrupt t true).2)
      else
        match async_init_delay k data.async_init_step with
        | none => none
        | some ms => some (data, r.2 ++ [.k_work_schedule ms])

/-- Source function `paw3395_init_irq`. -/
def paw3395_init_irq (p : Platform) : Int :=
  if !p.irq_port_ready then -ENODEV
  else
    let err := p.irq_pin_configure
    if err ≠ 0 then err
    else p.irq_add_callback

/-- Source function `paw3395_init`: the return code and the calls made. The result is `none` when the
delay table is indexed outside its bounds. -/
def paw3395_init (k : Kconfig) (p : Platform) (data : pixart_data) :
    Option (Int × List Effect) :=
  if !p.cs_port_ready then some (-ENODEV, [])
  else
    let err := p.cs_pin_configure
    if err ≠ 0 then some (err, [])
    else
      let err := paw3395_init_irq p
      if err ≠ 0 then some (err, [])
      else
        match async_init_delay k data.async_init_step with
        | none => none
        | some ms => some (err, [.k_work_schedule ms])

/-! ## The init work item on the system work queue -/

/-- The effect is a `k_work_schedule` request. -/
def Effect.is_schedule : Effect → Bool
  | .k_work_schedule _ => true
  | _ => false

/-- The delays requested from the scheduler, in order. -/
def sched_delays (tr : List Effect) : List Int :=
  tr.filterMap fun e =>
    match e with
    | .k_work_schedule ms => some ms
    | _ => none

/-- One driver instance as the work queue sees it: its data, whether `init_work` is
scheduled, and everything the instance has done so far. -/
structure Instance where
  data : pixart_data
  init_work_scheduled : Bool
  trace : List Effect
deriving DecidableEq, Repr

/-- The zero-initialised `static struct pixart_data data##n`. -/
def pixart_data.zero : pixart_data :=
  { ready := false, async_init_step := ASYNC_INIT_STEP_POWER_UP, err := 0 }

/-- Device registration: `paw3395_init` runs on the zero-initialised data. -/
def Instance.boot (k : Kconfig) (p : Platform) : Option (Int × Instance) :=
  match paw3395_init k p pixart_data.zero with
  | none => none
  | some (err, effs) =>
    some (err, { data := pixart_data.zero
                 init_work_scheduled := effs.any Effect.is_schedule
                 trace := effs })

/-- The work queue runs `init_work` if it is scheduled; the handler runs once, with the
answers `t` of the transport, and the item is scheduled again only if the handler asked. -/
def Instance.run_init_work (k : Kconfig) (config : pixart_config) (t : Transport)
    (s : Instance) : Option Instance :=
  if s.init_work_scheduled then
    match paw3395_async_init k config t s.data with
    | none => none
    | some (data, effs) =>
      some { data := data
             init_work_scheduled := effs.any Effect.is_schedule
             trace := s.trace ++ effs }
  else some s

/-- Successive expiries of `init_work`: the i-th run of the handler gets the i-th element
of the list as the transport's answers. -/
def init_chain (k : Kconfig) (config : pixart_config) :
    List Transport → Instance → Option Instance
  | [], s => some s
  | t :: ts, s =>
    match s.run_init_work k config t with
    | none => none
    | some s' => init_chain k config ts s'

/-- The return code of step action `i` under the transport answers `t`. -/
def step_result (config : pixart_config) (i : Nat) (t : Transport) : Option Int :=
  (async_init_fn i).map fun fn => (fn config t).1

/-- The step actions `i`, `i + 1`, ... all return success, the j-th of them under the
answers given by the j-th element of the list. -/
def steps_succeed (config : pixart_config) : Nat → List Transport → Bool
  | _, [] => true
  | i, t :: ts => step_result config i t == some 0 && steps_succeed config (i + 1) ts

/-- The delays of the table entries `i + 1`, ..., `i + n`. -/
def delays_after (k : Kconfig) : Nat → Nat → List Int
  | _, 0 => []
  | i, n + 1 => (async_init_delay k (i + 1)).toList ++ delays_after k (i + 1) n

/-! ## The sample / accumulate / report pipeline -/

/-- The `int16_t` read at offset `pos` of the burst buffer:
`(int16_t)sys_get_le16(&buf[pos])`. The buffer is an array of `uint8_t`. -/
def burst_int16 (buf : Nat → Nat) (pos : Nat) : Int :=
  wrap16 (sys_get_le16 (buf pos % 256) (buf (pos + 1) % 256) : Nat)

/-- The axis transform of `paw3395_report_data` (the three `#if IS_ENABLED` blocks), on
`int16_t` values: swap, then negate X, then negate Y. -/
def axis_transform (k : Kconfig) (x y : Int) : Int × Int :=
  let a := x
  let x := if k.SWAP_XY then y else x
  let y := if k.SWAP_XY then a else y
  let x := if k.INVERT_X then wrap16 (-x) else x
  let y := if k.INVERT_Y then wrap16 (-y) else y
  (x, y)

/-- The purge, the sample time stamp and the accumulation of `paw3395_report_data`
(from the first `#if CONFIG_PAW3395_REPORT_INTERVAL_MIN > 0` after the transform up to
`dy += y`). -/
def accumulate (k : Kconfig) (now : Int) (st : report_statics) (x y : Int) :
    report_statics :=
  let st :=
    if k.REPORT_INTERVAL_MIN > 0 then
      let st :=
        if wrap64 (now - st.last_smp_time) ≥ k.REPORT_INTERVAL_MIN then
          { st with dx := 0, dy := 0 }
        else st
      { st with last_smp_time := now }
    else st
  { st with dx := wrap64 (st.dx + x), dy := wrap64 (st.dy + y) }

/-- The report stage of `paw3395_report_data` (from the clamp to the end): the statics
after it and the events handed to `input_report`. -/
def report_stage (k : Kconfig) (config : pixart_config) (now : Int) (st : report_statics) :
    report_statics × List Effect :=
  let rx := wrap16 (CLAMP st.dx INT16_MIN INT16_MAX)
  let ry := wrap16 (CLAMP st.dy INT16_MIN INT16_MAX)
  let have_x := decide (rx ≠ 0)
  let have_y := decide (ry ≠ 0)
  if have_x || have_y then
    let st := if k.REPORT_INTERVAL_MIN > 0 then { st with last_rpt_time := now } else st
    let st := { st with dx := 0, dy := 0 }
    (st,
      (if have_x then [Effect.input_report config.evt_type config.x_input_code rx (!have_y)]
       else []) ++
      (if have_y then [Effect.input_report config.evt_type config.y_input_code ry true]
       else []))
  else (st, [])

/-- Source function `paw3395_report_data`: the return code, the statics after the call
and the calls made. `now` is the value of `k_uptime_get()`. -/
def paw3395_report_data (k : Kconfig) (h : Header) (config : pixart_config) (t : Transport)
    (now : Int) (data : pixart_data) (st : report_statics) :
    Int × report_statics × List Effect :=
  if !data.ready then (-EBUSY, st, [])
  else
    let err := t.motion_burst_read.1
    let buf := t.motion_burst_read.2
    if err ≠ 0 then (err, st, [.lib_motion_burst_read])
    else
      let x := burst_int16 buf h.DX_POS
      let y := burst_int16 buf h.DY_POS
      if x = 0 ∧ y = 0 then (0, st, [.lib_motion_burst_read])
      else
        let p := axis_transform k x y
        let st := accumulate k now st p.1 p.2
        if k.REPORT_INTERVAL_MIN > 0 ∧
            wrap64 (now - st.last_rpt_time) < k.REPORT_INTERVAL_MIN then
          (0, st, [.lib_motion_burst_read])
        else
          let r := report_stage k config now st
          (err, r.1, Effect.lib_motion_burst_read :: r.2)

/-- The sample of the current burst after the axis transform. -/
def transformed_sample (k : Kconfig) (h : Header) (t : Transport) : Int × Int :=
  axis_transform k (burst_int16 t.motion_burst_read.2 h.DX_POS)
    (burst_int16 t.motion_burst_read.2 h.DY_POS)

/-- The statics of `paw3395_report_data` right after `dy += y`: the accumulator after the
current sample has been added. -/
def pending (k : Kconfig) (h : Header) (t : Transport) (now : Int) (st : report_statics) :
    report_statics :=
  accumulate k now st (transformed_sample k h t).1 (transformed_sample k h t).2

/-- The effect is an event handed to `input_report`. -/
def Effect.is_event : Effect → Bool
  | .input_report _ _ _ _ => true
  | _ => false

/-- The events handed to `input_report`, in order. -/
def events (tr : List Effect) : List Effect := tr.filter Effect.is_event

/-- Successive calls of `paw3395_report_data` on one instance: each call has its own
time and transport answers; the result lists, per call, the time, the return code and
the calls made, and gives the statics after the last call. -/
def report_run (k : Kconfig) (h : Header) (config : pixart_config) (data : pixart_data) :
    report_statics → List (Int × Transport) → List (Int × Int × List Effect) × report_statics
  | st, [] => ([], st)
  | st, c :: cs =>
    let r := paw3395_report_data k h config c.2 c.1 data st
    let rest := report_run k h config data r.2.1 cs
    ((c.1, r.1, r.2.2) :: rest.1, rest.2)

/-- The call of a run emitted at least one event. -/
def emits (o : Int × Int × List Effect) : Bool := !(events o.2.2).isEmpty

/-- The value is one that `k_uptime_get()` can return: a non-negative `int64_t`. -/
def is_uptime (t : Int) : Prop := 0 ≤ t ∧ t < 9223372036854775808

instance (t : Int) : Decidable (is_uptime t) := by unfold is_uptime; infer_instance

/-- The value fits `int64_t`. -/
def is_int64 (v : Int) : Prop := -9223372036854775808 ≤ v ∧ v < 9223372036854775808

instance (v : Int) : Decidable (is_int64 v) := by unfold is_int64; infer_instance

/-- The value fits `int16_t`. -/
def is_int16 (v : Int) : Prop := -32768 ≤ v ∧ v < 32768

instance (v : Int) : Decidable (is_int16 v) := by unfold is_int16; infer_instance

/-! ## The interrupt bridge -/

/-- Source function `paw3395_gpio_callback`: the calls made, in order. -/
def paw3395_gpio_callback (t : Transport) : List Effect :=
  (paw3395_set_interrupt t false).2 ++ [Effect.k_work_submit]

/-- Source function `paw3395_work_callback`, the handler of `trigger_work`: the statics
after it and the calls made, in order. -/
def paw3395_work_callback (k : Kconfig) (h : Header) (config : pixart_config)
    (t : Transport) (now : Int) (data : pixart_data) (st : report_statics) :
    report_statics × List Effect :=
  let r := paw3395_report_data k h config t now data st
  (r.2.1, r.2.2 ++ (paw3395_set_interrupt t true).2)

/-- The effect is a call of the sensor library (transport I/O). -/
def Effect.is_transport : Effect → Bool
  | .lib_power_up_reset => true
  | .lib_verify_product_id => true
  | .lib_power_up_init_regs => true
  | .lib_clear_motion_pin_state => true
  | .lib_set_performance _ => true
  | .lib_set_cpi _ => true
  | .lib_motion_burst_read => true
  | _ => false

/-- The interrupt bridge of one instance: whether the interrupt line is enabled, and how
many submissions of `trigger_work` have not been run yet. -/
structure Bridge where
  interrupt_enabled : Bool
  pending : Nat
deriving DecidableEq, Repr

/-- What one call does to the bridge: `gpio_pin_interrupt_configure_dt` sets the line as
asked unless it fails (a negative return), `k_work_submit` queues one run of the task. -/
def Bridge.apply (t : Transport) (b : Bridge) : Effect → Bridge
  | .gpio_pin_interrupt_configure en =>
    if t.interrupt_configure en < 0 then b else { b with interrupt_enabled := en }
  | .k_work_submit => { b with pending := b.pending + 1 }
  | _ => b

/-- The bridge after a sequence of calls. -/
def Bridge.run (t : Transport) (b : Bridge) (effs : List Effect) : Bridge :=
  effs.foldl (Bridge.apply t) b

/-- Step "hardware edge": possible only while the interrupt line is enabled; runs
`paw3395_gpio_callback`. -/
def Bridge.hardware_edge (t : Transport) (b : Bridge) : Option Bridge :=
  if b.interrupt_enabled then some (b.run t (paw3395_gpio_callback t)) else none

/-- Step "worker runs the task": possible only when a submission is pending; takes it
from the queue and runs `paw3395_work_callback`. -/
def Bridge.worker (k : Kconfig) (h : Header) (config : pixart_config) (t : Transport)
    (now : Int) (data : pixart_data) (st : report_statics) (b : Bridge) :
    Option (Bridge × report_statics) :=
  if 0 < b.pending then
    let r := paw3395_work_callback k h config t now data st
    some (Bridge.run t { b with pending := b.pending - 1 } r.2, r.1)
  else none

/-- The bridge states reachable once initialisation has enabled the interrupt, by
hardware edges and runs of the task, as long as the pin configuration calls succeed. -/
inductive bridge_reachable (k : Kconfig) (h : Header) (config : pixart_config)
    (data : pixart_data) : Bridge → Prop where
  | init_done : bridge_reachable k h config data ⟨true, 0⟩
  | edge (t : Transport) (b b' : Bridge) :
      bridge_reachable k h config data b → 0 ≤ t.interrupt_configure false →
      b.hardware_edge t = some b' → bridge_reachable k h config data b'
  | work (t : Transport) (now : Int) (st st' : report_statics) (b b' : Bridge) :
      bridge_reachable k h config data b → 0 ≤ t.interrupt_configure true →
      b.worker k h config t now data st = some (b', st') →
      bridge_reachable k h config data b'

/-- The bridge states reachable once initialisation has enabled the interrupt, by
hardware edges and runs of the task, whatever the pin configuration calls return. -/
inductive bridge_reachable_any (k : Kconfig) (h : Header) (config : pixart_config)
    (data : pixart_data) : Bridge → Prop where
  | init_done : bridge_reachable_any k h config data ⟨true, 0⟩
  | edge (t : Transport) (b b' : Bridge) :
      bridge_reachable_any k h config data b →
      b.hardware_edge t = some b' → bridge_reachable_any k h config data b'
  | work (t : Transport) (now : Int) (st st' : report_statics) (b b' : Bridge) :
      bridge_reachable_any k h config data b →
      b.worker k h config t now data st = some (b', st') →
      bridge_reachable_any k h config data b'

/-! ## Reachable states of the initialisation -/

/-- The instance states reachable from device registration (`paw3395_init` on the
zero-initialised data) by runs of the work queue on `init_work`. -/
inductive init_reachable (k : Kconfig) (p : Platform) (config : pixart_config) :
    Instance → Prop where
  | boot (err : Int) (s : Instance) :
      Instance.boot k p = some (err, s) → init_reachable k p config s
  | run (t : Transport) (s s' : Instance) :
      init_reachable k p config s → s.run_init_work k config t = some s' →
      init_reachable k p config s'

/-! ## The attribute entry point -/

/-- Zephyr `struct sensor_value`. -/
structure sensor_value where
  val1 : Int
  val2 : Int
deriving DecidableEq, Repr

/-- Constants used by `paw3395_attr_set` that the file does not define: Zephyr's
`SENSOR_CHAN_ALL`, and the vendor header's `PAW3395_ATTR_CPI` and
`PAW3395_SVALUE_TO_CPI`. -/
structure SensorApi where
  SENSOR_CHAN_ALL : Nat
  PAW3395_ATTR_CPI : Nat
  PAW3395_SVALUE_TO_CPI : sensor_value → Nat

/-- Source function `paw3395_attr_set`: the return code and the calls made. The attribute
is compared after the cast `(uint32_t)attr`. -/
def paw3395_attr_set (api : SensorApi) (t : Transport) (data : pixart_data)
    (chan : Nat) (attr : Nat) (val : sensor_value) : Int × List Effect :=
  if chan ≠ api.SENSOR_CHAN_ALL then (-ENOTSUP, [])
  else if !data.ready then (-EBUSY, [])
  else if attr % 4294967296 = api.PAW3395_ATTR_CPI % 4294967296 then
    (t.set_cpi (api.PAW3395_SVALUE_TO_CPI val),
      [Effect.lib_set_cpi (api.PAW3395_SVALUE_TO_CPI val)])
  else (-ENOTSUP, [])

/-! ## The activity listener -/

/-- ZMK `enum zmk_activity_state`. -/
inductive zmk_activity_state where
  | ZMK_ACTIVITY_ACTIVE
  | ZMK_ACTIVITY_IDLE
  | ZMK_ACTIVITY_SLEEP
deriving DecidableEq, Repr

/-- The `for` loop of `on_activity_state` from index `i` on: the calls made, each with
the index of the device it is made for. A device is its configuration and the answers of
its transport. -/
def on_activity_state_loop (enable : Bool) :
    Nat → List (pixart_config × Transport) → List (Nat × Effect)
  | _, [] => []
  | i, d :: ds =>
    (paw3395_set_performance d.1 d.2 enable).2.map (fun e => (i, e)) ++
      on_activity_state_loop enable (i + 1) ds

/-- Source function `on_activity_state` on the registry `paw3395_devs`: the return code and
the calls made. The event is `none` when `as_zmk_activity_state_changed` returns `NULL`. -/
def on_activity_state (paw3395_devs : List (pixart_config × Transport))
    (state_ev : Option zmk_activity_state) : Int × List (Nat × Effect) :=
  match state_ev with
  | none => (0, [])
  | some state =>
    let enable := decide (state = zmk_activity_state.ZMK_ACTIVITY_ACTIVE)
    (0, on_activity_state_loop enable 0 paw3395_devs)

/-! ## Several instances, and runs seen call by call -/

/-- The parts of Zephyr's `struct device` that the driver follows: `dev->config` and
`dev->data`. -/
structure device where
  config : pixart_config
  data : pixart_data
deriving DecidableEq, Repr

/-- Successive calls of `paw3395_report_data`, each on the device it names. The statics
are `static` locals of the function, so all the devices share them. -/
def report_run_shared (k : Kconfig) (h : Header) :
    report_statics → List (device × Int × Transport) →
      List (Int × Int × List Effect) × report_statics
  | st, [] => ([], st)
  | st, c :: cs =>
    let r := paw3395_report_data k h c.1.config c.2.2 c.2.1 c.1.data st
    let rest := report_run_shared k h r.2.1 cs
    ((c.2.1, r.1, r.2.2) :: rest.1, rest.2)

/-- The calls of a run of `report_run`, each with the statics it starts from. -/
def report_run_pre (k : Kconfig) (h : Header) (config : pixart_config) (data : pixart_data) :
    report_statics → List (Int × Transport) → List (report_statics × Int × Transport)
  | _, [] => []
  | st, c :: cs =>
    (st, c.1, c.2) ::
      report_run_pre k h config data (paw3395_report_data k h config c.2 c.1 data st).2.1 cs

/-- The sum of the values of the events that carry the input code `code`. -/
def axis_sum (code : Nat) (tr : List Effect) : Int :=
  (tr.map fun e =>
    match e with
    | .input_report _ c v _ => if c = code then v else 0
    | _ => 0).sum

/-- The transformed sample that a call takes in: the one of its burst when the device is
ready and the burst is read, nothing otherwise. -/
def sample_taken (k : Kconfig) (h : Header) (data : pixart_data) (t : Transport) :
    Int × Int :=
  if data.ready = true ∧ t.motion_burst_read.1 = 0 then transformed_sample k h t else (0, 0)

/-- The call gets past the three early returns of `paw3395_report_data` that come before
the accumulation: the device is ready, the burst is read, the sample is not (0, 0). -/
def takes_sample (h : Header) (data : pixart_data) (t : Transport) : Prop :=
  data.ready = true ∧ t.motion_burst_read.1 = 0 ∧
    ¬ (burst_int16 t.motion_burst_read.2 h.DX_POS = 0 ∧
      burst_int16 t.motion_burst_read.2 h.DY_POS = 0)

instance (h : Header) (data : pixart_data) (t : Transport) :
    Decidable (takes_sample h data t) := by
  unfold takes_sample; infer_instance

/-! ## Example inputs -/

/-- Example build options: no extra power-up delay, no report interval, no axis transform. -/
def ex_kconfig : Kconfig :=
  { INIT_POWER_UP_EXTRA_DELAY_MS := 0, REPORT_INTERVAL_MIN := 0
    SWAP_XY := false, INVERT_X := false, INVERT_Y := false }

/-- Example build options with a minimum report interval of 10 ms. -/
def ex_kconfig_10ms : Kconfig := { ex_kconfig with REPORT_INTERVAL_MIN := 10 }

/-- Example build options with axis swap and X inversion, and no Y inversion. -/
def ex_kconfig_swap_invert_x : Kconfig := { ex_kconfig with SWAP_XY := true, INVERT_X := true }

/-- Example burst layout: X at bytes 2 and 3, Y at bytes 4 and 5. -/
def ex_header : Header := { DX_POS := 2, DY_POS := 4 }

/-- Example device configuration, with `force_awake` set. -/
def ex_config : pixart_config :=
  { cpi := 800, evt_type := 2, x_input_code := 0, y_input_code := 1, force_awake := true }

/-- Example burst buffer holding the little-endian 16-bit fields `x` and `y`. -/
def ex_burst (x y : Nat) : Nat → Nat := fun i =>
  [0, 0, x % 256, x / 256, y % 256, y / 256].getD i 0

/-- Example transport: every primitive succeeds, the burst encodes X = 5, Y = -3. -/
def ex_transport : Transport :=
  { power_up_reset := 0, verify_product_id := 0, power_up_init_regs := 0
    clear_motion_pin_state := 0, set_performance := fun _ => 0, set_cpi := fun _ => 0
    motion_burst_read := (0, ex_burst 5 65533), interrupt_configure := fun _ => 0 }

/-- Example transport whose register upload fails with `-7`. -/
def ex_transport_bad_regs : Transport := { ex_transport with power_up_init_regs := -7 }

/-- Example transport whose `set_performance` primitive fails with `-EIO`. -/
def ex_transport_bad_perf : Transport := { ex_transport with set_performance := fun _ => - EIO }

/-- Example transport whose burst encodes the unsigned 16-bit fields `x` and `y`. -/
def ex_sample (x y : Nat) : Transport := { ex_transport with motion_burst_read := (0, ex_burst x y) }

/-- Example transport whose burst read fails with `-EIO`. -/
def ex_transport_bad_read : Transport :=
  { ex_transport with motion_burst_read := (- EIO, ex_burst 5 65533) }

/-- Example transport on which `gpio_pin_interrupt_configure_dt` fails with `-EIO`. -/
def ex_transport_bad_irq : Transport :=
  { ex_transport with interrupt_configure := fun _ => - EIO }

/-- Example platform: every GPIO call succeeds. -/
def ex_platform : Platform :=
  { cs_port_ready := true, cs_pin_configure := 0, irq_port_ready := true
    irq_pin_configure := 0, irq_add_callback := 0 }

/-- Example device configuration without `force_awake`, with its own input codes. -/
def ex_config_b : pixart_config :=
  { cpi := 1600, evt_type := 2, x_input_code := 10, y_input_code := 11, force_awake := false }

/-- Example device A: ready, with `ex_config`. -/
def ex_device_a : device := { config := ex_config, data := ⟨true, 3, 0⟩ }

/-- Example device B: ready, with `ex_config_b`. -/
def ex_device_b : device := { config := ex_config_b, data := ⟨true, 3, 0⟩ }

/-- Example sensor API constants: channel "all" is 59, the CPI attribute is 32, and the
CPI is the integer part of the value. -/
def ex_api : SensorApi :=
  { SENSOR_CHAN_ALL := 59, PAW3395_ATTR_CPI := 32
    PAW3395_SVALUE_TO_CPI := fun v => v.val1.toNat }

/-- Example build options with X inversion only. -/
def ex_kconfig_invert_x : Kconfig := { ex_kconfig with INVERT_X := true }

/-- Example instance state right after a successful `paw3395_init`. -/
def ex_init_state : Instance :=
  { data := pixart_data.zero, init_work_scheduled := true
    trace := [Effect.k_work_schedule 50] }

/-- Example instance state after three successful runs of the init handler. -/
def ex_done_state : Instance :=
  { data := { ready := true, async_init_step := 3, err := 0 }
    init_work_scheduled := false
    trace := [Effect.k_work_schedule 50, Effect.lib_power_up_reset, Effect.k_work_schedule 5,
      Effect.lib_verify_product_id, Effect.lib_power_up_init_regs,
      Effect.lib_clear_motion_pin_state, Effect.k_work_schedule 1,
      Effect.lib_set_performance true, Effect.lib_set_cpi 800,
      Effect.gpio_pin_interrupt_configure true] }

/-! ## Initialisation chain: helper lemmas -/

theorem sched_delays_append (a b : List Effect) :
    sched_delays (a ++ b) = sched_delays a ++ sched_delays b := by
  simp [sched_delays, List.filterMap_append]

theorem sched_delays_schedule (ms : Int) : sched_delays [Effect.k_work_schedule ms] = [ms] :=
  rfl

theorem sched_delays_interrupt (en : Bool) :
    sched_delays [Effect.gpio_pin_interrupt_configure en] = [] :=
  rfl

theorem sched_delays_power_up : sched_delays [Effect.lib_power_up_reset] = [] :=
  rfl

theorem sched_delays_cons_schedule (ms : Int) (l : List Effect) :
    sched_delays (Effect.k_work_schedule ms :: l) = ms :: sched_delays l :=
  rfl

theorem sched_delays_cons_power_up (l : List Effect) :
    sched_delays (Effect.lib_power_up_reset :: l) = sched_delays l :=
  rfl

theorem init_chain_idle (k : Kconfig) (config : pixart_config) (ts : List Transport)
    (s : Instance) (hs : s.init_work_scheduled = false) :
    init_chain k config ts s = some s := by
  induction ts with
  | nil => rfl
  | cons t ts ih => simp [init_chain, Instance.run_init_work, hs, ih]

theorem power_up_effects (t : Transport) :
    (paw3395_async_init_power_up t).2 = [Effect.lib_power_up_reset] := by
  simp only [paw3395_async_init_power_up]
  split_ifs <;> rfl

theorem fw_load_no_schedule (t : Transport) :
    sched_delays (paw3395_async_init_fw_load t).2 = [] ∧
      (paw3395_async_init_fw_load t).2.any Effect.is_schedule = false := by
  simp only [paw3395_async_init_fw_load]
  split_ifs <;> simp [sched_delays, Effect.is_schedule]

theorem configure_no_schedule (config : pixart_config) (t : Transport) :
    sched_delays (paw3395_async_init_configure config t).2 = [] ∧
      (paw3395_async_init_configure config t).2.any Effect.is_schedule = false := by
  simp only [paw3395_async_init_configure, paw3395_set_performance]
  split_ifs <;> simp [sched_delays, Effect.is_schedule]

/-- One expiry of `init_work` at step `i` of the table: what the handler leaves behind. -/
theorem run_init_work_step (k : Kconfig) (config : pixart_config) (t : Transport)
    (s : Instance) (i : Nat) (e : Int) (hs : s.init_work_scheduled = true)
    (hi : s.data.async_init_step = i) (he : step_result config i t = some e) :
    ∃ s', s.run_init_work k config t = some s' ∧ s'.data.err = e ∧
      (e ≠ 0 → s'.data.async_init_step = i ∧ s'.data.ready = s.data.ready ∧
        s'.init_work_scheduled = false ∧ sched_delays s'.trace = sched_delays s.trace) ∧
      (e = 0 → s'.data.async_init_step = i + 1 ∧
        (i < 2 → s'.data.ready = s.data.ready ∧ s'.init_work_scheduled = true ∧
          sched_delays s'.trace = sched_delays s.trace ++ (async_init_delay k (i + 1)).toList) ∧
        (i = 2 → s'.data.ready = true ∧ s'.init_work_scheduled = false ∧
          sched_delays s'.trace = sched_delays s.trace)) := by
  obtain ⟨data, sch, tr⟩ := s
  obtain ⟨rdy, stp, er⟩ := data
  simp only at hs hi
  subst hs hi
  have h1 := power_up_effects t
  have h2 := fw_load_no_schedule t
  have h3 := configure_no_schedule config t
  match stp, he with
  | 0, he =>
    simp only [step_result, async_init_fn, Option.map_some', Option.some.injEq] at he
    by_cases h0 : e = 0
    · subst h0
      simp [Instance.run_init_work, paw3395_async_init, async_init_fn, he, h1,
        ASYNC_INIT_STEP_COUNT, async_init_delay, sched_delays_append, sched_delays,
        Effect.is_schedule]
    · simp [Instance.run_init_work, paw3395_async_init, async_init_fn, he, h0, h1,
        sched_delays_append, sched_delays, Effect.is_schedule]
  | 1, he =>
    simp only [step_result, async_init_fn, Option.map_some', Option.some.injEq] at he
    by_cases h0 : e = 0
    · subst h0
      simp [Instance.run_init_work, paw3395_async_init, async_init_fn, he, h2,
        ASYNC_INIT_STEP_COUNT, async_init_delay, sched_delays_append, sched_delays_schedule,
        Effect.is_schedule]
    · simp [Instance.run_init_work, paw3395_async_init, async_init_fn, he, h0, h2,
        sched_delays_append]
  | 2, he =>
    simp only [step_result, async_init_fn, Option.map_some', Option.some.injEq] at he
    by_cases h0 : e = 0
    · subst h0
      simp [Instance.run_init_work, paw3395_async_init, async_init_fn, he, h3,
        ASYNC_INIT_STEP_COUNT, paw3395_set_interrupt, sched_delays_append,
        sched_delays_interrupt, Effect.is_schedule]
    · simp [Instance.run_init_work, paw3395_async_init, async_init_fn, he, h0, h3,
        sched_delays_append]
  | n + 3, he => simp [step_result, async_init_fn] at he

theorem step_result_defined (config : pixart_config) (t : Transport) (i : Nat) (hi : i ≤ 2) :
    ∃ e, step_result config i t = some e := by
  interval_cases i <;> simp [step_result, async_init_fn]

theorem step_result_undefined (config : pixart_config) (t : Transport) (i : Nat)
    (hi : 3 ≤ i) : step_result config i t = none := by
  match i, hi with
  | n + 3, _ => simp [step_result, async_init_fn]

/-- The chain from any step `i` of the table, with `init_work` scheduled and `ready` still
false. -/
theorem init_chain_from (k : Kconfig) (config : pixart_config) (ts : List Transport) :
    ∀ (s : Instance) (i : Nat), i ≤ 2 → s.data.async_init_step = i →
      s.init_work_scheduled = true → s.data.ready = false →
      ∃ s', init_chain k config ts s = some s' ∧
        (s'.data.ready = true ↔
          ∃ us rest, ts = us ++ rest ∧ us.length + i = 3 ∧ steps_succeed config i us = true) ∧
        (∀ pre t rest e, ts = pre ++ t :: rest → steps_succeed config i pre = true →
          step_result config (i + pre.length) t = some e → e ≠ 0 →
          s'.data.async_init_step = i + pre.length ∧ s'.data.err = e ∧
          s'.data.ready = false ∧ s'.init_work_scheduled = false ∧
          sched_delays s'.trace = sched_delays s.trace ++ delays_after k i pre.length) := by
  induction ts with
  | nil =>
    intro s i hi _ _ hr
    refine ⟨s, rfl, ?_, ?_⟩
    · constructor
      · intro h; simp [hr] at h
      · rintro ⟨us, rest, h, hl, _⟩
        have : us = [] := by
          cases us with
          | nil => rfl
          | cons => simp at h
        subst this
        simp at hl
        omega
    · intro pre t rest e h
      simp at h
  | cons t0 r ih =>
    intro s i hi hstep hsch hr
    obtain ⟨e0, he0⟩ := step_result_defined config t0 i hi
    obtain ⟨s1, hrun, herr, hfail, hok⟩ := run_init_work_step k config t0 s i e0 hsch hstep he0
    by_cases h0 : e0 = 0
    · -- the step succeeded
      subst h0
      obtain ⟨hstep1, hlt, heq⟩ := hok rfl
      rcases Nat.lt_or_ge i 2 with h2 | h2
      · obtain ⟨hr1, hsch1, htr1⟩ := hlt h2
        obtain ⟨s', hch, hiff, hC⟩ := ih s1 (i + 1) (by omega) hstep1 hsch1 (by rw [hr1, hr])
        refine ⟨s', by simp [init_chain, hrun, hch], ?_, ?_⟩
        · rw [hiff]
          constructor
          · rintro ⟨us, rest, h, hl, hs⟩
            exact ⟨t0 :: us, rest, by simp [h], by simp; omega, by simp [steps_succeed, he0, hs]⟩
          · rintro ⟨us, rest, h, hl, hs⟩
            cases us with
            | nil => simp at hl; omega
            | cons u us =>
              simp at h
              simp [steps_succeed] at hs
              exact ⟨us, rest, h.2, by simp at hl; omega, hs.2⟩
        · intro pre t rest e h hs he hne
          cases pre with
          | nil =>
            simp at h
            simp [← h.1, he0] at he
            exact absurd he.symm hne
          | cons p pre =>
            simp at h
            simp [steps_succeed] at hs
            have := hC pre t rest e h.2 hs.2
              (by rw [← he]; congr 1; simp; omega) hne
            obtain ⟨a, b, c, d, f⟩ := this
            refine ⟨by rw [a]; simp; omega, b, c, d, ?_⟩
            rw [f, htr1]
            simp [delays_after]
      · have hi2 : i = 2 := by omega
        obtain ⟨hr1, hsch1, htr1⟩ := heq hi2
        refine ⟨s1, by simp [init_chain, hrun, init_chain_idle k config r s1 hsch1], ?_, ?_⟩
        · simp only [hr1, true_iff]
          exact ⟨[t0], r, rfl, by simp [hi2], by simp [steps_succeed, he0]⟩
        · intro pre t rest e h hs he hne
          cases pre with
          | nil =>
            simp at h
            simp [← h.1, he0] at he
            exact absurd he.symm hne
          | cons p pre =>
            rw [step_result_undefined config t _ (by simp; omega)] at he
            simp at he
    · -- the step failed
      obtain ⟨hstep1, hr1, hsch1, htr1⟩ := hfail h0
      refine ⟨s1, by simp [init_chain, hrun, init_chain_idle k config r s1 hsch1], ?_, ?_⟩
      · constructor
        · intro h; rw [hr1, hr] at h; simp at h
        · rintro ⟨us, rest, h, hl, hs⟩
          cases us with
          | nil => simp at hl; omega
          | cons u us =>
            simp at h
            simp [steps_succeed, ← h.1, he0] at hs
            exact absurd hs.1 h0
      · intro pre t rest e h hs he hne
        cases pre with
        | nil =>
          simp at h
          simp [← h.1, he0] at he
          subst he
          exact ⟨by simpa using hstep1, herr, by rw [hr1, hr], hsch1, by simp [htr1, delays_after]⟩
        | cons p pre =>
          simp at h
          simp [steps_succeed, ← h.1, he0] at hs
          exact absurd hs.1 h0

/-! ## Initialisation chain: the claims -/

/-- C1: starting from `init_step = PowerUp`, `ready = false` with `init_work` scheduled, and
for every sequence of transport answers fed to successive runs of `paw3395_async_init`: the
chain ends in a state where `ready` is true if and only if the power-up, firmware-load and
configure actions returned success in that order; and if the action of some step returns an
error after the earlier ones succeeded, then `async_init_step` stays at that step, the error
is recorded in `err`, `ready` stays false, `init_work` is not scheduled again, and the only
delays ever requested are those of the steps that succeeded. -/
theorem async_init_ready_iff (k : Kconfig) (config : pixart_config) (ts : List Transport)
    (e0 : Int) (tr0 : List Effect) :
    ∃ s, init_chain k config ts ⟨⟨false, ASYNC_INIT_STEP_POWER_UP, e0⟩, true, tr0⟩ = some s ∧
      (s.data.ready = true ↔
        ∃ t0 t1 t2 rest, ts = t0 :: t1 :: t2 :: rest ∧
          (paw3395_async_init_power_up t0).1 = 0 ∧
          (paw3395_async_init_fw_load t1).1 = 0 ∧
          (paw3395_async_init_configure config t2).1 = 0) ∧
      (∀ pre t rest e, ts = pre ++ t :: rest → steps_succeed config 0 pre = true →
        step_result config pre.length t = some e → e ≠ 0 →
        s.data.async_init_step = pre.length ∧ s.data.err = e ∧ s.data.ready = false ∧
        s.init_work_scheduled = false ∧
        sched_delays s.trace = sched_delays tr0 ++ delays_after k 0 pre.length) := by
  obtain ⟨s, hch, hiff, hC⟩ := init_chain_from k config ts
    ⟨⟨false, ASYNC_INIT_STEP_POWER_UP, e0⟩, true, tr0⟩ 0 (by omega) rfl rfl rfl
  refine ⟨s, hch, ?_, ?_⟩
  · rw [hiff]
    constructor
    · rintro ⟨us, rest, h, hl, hs⟩
      match us, hl, hs with
      | [t0, t1, t2], _, hs =>
        refine ⟨t0, t1, t2, rest, by simp [h], ?_⟩
        simpa [steps_succeed, step_result, async_init_fn] using hs
    · rintro ⟨t0, t1, t2, rest, h, h0, h1, h2⟩
      exact ⟨[t0, t1, t2], rest, by simp [h], rfl,
        by simp [steps_succeed, step_result, async_init_fn, h0, h1, h2]⟩
  · intro pre t rest e h hs he hne
    simpa using hC pre t rest e h hs (by simpa using he) hne

/-- Witness of C1: the firmware-load step fails with `-7` on its register upload. -/
theorem async_init_ready_iff_witness :
    ∃ s, init_chain ex_kconfig ex_config [ex_transport, ex_transport_bad_regs, ex_transport]
        ⟨⟨false, ASYNC_INIT_STEP_POWER_UP, 0⟩, true, []⟩ = some s ∧
      s.data.async_init_step = 1 ∧ s.data.err = -7 ∧ s.data.ready = false ∧
      s.init_work_scheduled = false ∧ sched_delays s.trace = [5] := by
  obtain ⟨s, hs, _, hC⟩ := async_init_ready_iff ex_kconfig ex_config
    [ex_transport, ex_transport_bad_regs, ex_transport] 0 []
  exact ⟨s, hs, hC [ex_transport] ex_transport_bad_regs [ex_transport] (-7) rfl
    (by decide) (by decide) (by decide)⟩

/-- C2: with `CONFIG_PAW3395_INIT_POWER_UP_EXTRA_DELAY_MS = 0`, a successful `paw3395_init`
and every step action succeeding, the calls made by `paw3395_init` and the successive runs
of `paw3395_async_init` are, in order: schedule 50 ms, power-up, schedule 5 ms,
firmware-load, schedule 1 ms, configure, enable the interrupt. The delays requested are
exactly `[50, 5, 1]` and `init_work` is not scheduled after the configure step. -/
theorem init_delays_50_5_1 (k : Kconfig) (p : Platform) (config : pixart_config)
    (t0 t1 t2 : Transport) (rest : List Transport)
    (hk : k.INIT_POWER_UP_EXTRA_DELAY_MS = 0)
    (hinit : ∃ effs, paw3395_init k p pixart_data.zero = some (0, effs))
    (h0 : (paw3395_async_init_power_up t0).1 = 0)
    (h1 : (paw3395_async_init_fw_load t1).1 = 0)
    (h2 : (paw3395_async_init_configure config t2).1 = 0) :
    ∃ b s, Instance.boot k p = some (0, b) ∧
      b.trace = [Effect.k_work_schedule 50] ∧
      init_chain k config (t0 :: t1 :: t2 :: rest) b = some s ∧
      s.trace = [Effect.k_work_schedule 50] ++ (paw3395_async_init_power_up t0).2 ++
        [Effect.k_work_schedule 5] ++ (paw3395_async_init_fw_load t1).2 ++
        [Effect.k_work_schedule 1] ++ (paw3395_async_init_configure config t2).2 ++
        [Effect.gpio_pin_interrupt_configure true] ∧
      sched_delays s.trace = [50, 5, 1] ∧
      s.init_work_scheduled = false ∧ s.data.ready = true := by
  have hp : paw3395_init k p pixart_data.zero = some (0, [Effect.k_work_schedule 50]) := by
    obtain ⟨effs, he⟩ := hinit
    simp only [paw3395_init, pixart_data.zero, ASYNC_INIT_STEP_POWER_UP, async_init_delay,
      hk] at he ⊢
    split_ifs at he ⊢ with c1 c2 c3
    · simp [ENODEV] at he
    · simp at he; exact absurd he.1 c2
    · simp at he; exact absurd he.1 c3
    · simp at he; simp [he.1]
  have e1 := power_up_effects t0
  have e2 := fw_load_no_schedule t1
  have e3 := configure_no_schedule config t2
  simp only [pixart_data.zero, ASYNC_INIT_STEP_POWER_UP] at hp
  refine ⟨⟨pixart_data.zero, true, [Effect.k_work_schedule 50]⟩, ?_⟩
  simp [Instance.boot, hp, Effect.is_schedule, init_chain, Instance.run_init_work,
    paw3395_async_init, pixart_data.zero, ASYNC_INIT_STEP_POWER_UP, async_init_fn, h0, h1, h2,
    ASYNC_INIT_STEP_COUNT, async_init_delay, e1, e2, e3, init_chain_idle,
    paw3395_set_interrupt, sched_delays_append, sched_delays_schedule, sched_delays_interrupt,
    sched_delays_cons_schedule, sched_delays_cons_power_up]

/-- Witness of C2: the example platform and transport, where every call succeeds. -/
theorem init_delays_50_5_1_witness :
    ∃ b s, Instance.boot ex_kconfig ex_platform = some (0, b) ∧
      b.trace = [Effect.k_work_schedule 50] ∧
      init_chain ex_kconfig ex_config [ex_transport, ex_transport, ex_transport] b = some s ∧
      s.trace = [Effect.k_work_schedule 50] ++ (paw3395_async_init_power_up ex_transport).2 ++
        [Effect.k_work_schedule 5] ++ (paw3395_async_init_fw_load ex_transport).2 ++
        [Effect.k_work_schedule 1] ++ (paw3395_async_init_configure ex_config ex_transport).2 ++
        [Effect.gpio_pin_interrupt_configure true] ∧
      sched_delays s.trace = [50, 5, 1] ∧
      s.init_work_scheduled = false ∧ s.data.ready = true :=
  init_delays_50_5_1 ex_kconfig ex_platform ex_config ex_transport ex_transport ex_transport []
    rfl ⟨_, rfl⟩ (by decide) (by decide) (by decide)

/-! ## Pipeline: helper lemmas -/

theorem wrap16_range (v : Int) : -32768 ≤ wrap16 v ∧ wrap16 v ≤ 32767 := by
  unfold wrap16; omega

theorem wrap16_id (v : Int) (h1 : -32768 ≤ v) (h2 : v ≤ 32767) : wrap16 v = v := by
  unfold wrap16; omega

theorem wrap64_id (v : Int) (h : is_int64 v) : wrap64 v = v := by
  unfold is_int64 at h; unfold wrap64; omega

theorem wrap64_sub_uptime (a b : Int) (ha : is_uptime a) (hb : is_uptime b) :
    wrap64 (a - b) = a - b := by
  unfold is_uptime at ha hb; unfold wrap64; omega

theorem wrap64_int16 (v : Int) (h1 : -32768 ≤ v) (h2 : v ≤ 32767) : wrap64 (0 + v) = v := by
  unfold wrap64; omega

theorem clamp16_eq (v : Int) :
    wrap16 (CLAMP v INT16_MIN INT16_MAX) = max (-32768) (min 32767 v) := by
  unfold CLAMP wrap16 INT16_MIN INT16_MAX
  split_ifs <;> omega

theorem burst_int16_range (buf : Nat → Nat) (pos : Nat) :
    -32768 ≤ burst_int16 buf pos ∧ burst_int16 buf pos ≤ 32767 :=
  wrap16_range _

theorem axis_transform_range (k : Kconfig) (x y : Int) (hx : -32768 ≤ x ∧ x ≤ 32767)
    (hy : -32768 ≤ y ∧ y ≤ 32767) :
    (-32768 ≤ (axis_transform k x y).1 ∧ (axis_transform k x y).1 ≤ 32767) ∧
      (-32768 ≤ (axis_transform k x y).2 ∧ (axis_transform k x y).2 ≤ 32767) := by
  have := wrap16_range (-x)
  have := wrap16_range (-y)
  simp only [axis_transform]
  split_ifs <;> omega

/-- The report stage in closed form: the accumulators end at zero, the report time is
stamped when something is emitted, and the events are the clamped accumulators, X first. -/
theorem report_stage_eq (k : Kconfig) (config : pixart_config) (now : Int)
    (st : report_statics) :
    report_stage k config now st =
      ({ dx := 0, dy := 0, last_smp_time := st.last_smp_time
         last_rpt_time :=
          if k.REPORT_INTERVAL_MIN > 0 ∧ (st.dx ≠ 0 ∨ st.dy ≠ 0) then now
          else st.last_rpt_time },
        (if max (-32768) (min 32767 st.dx) ≠ 0 then
          [Effect.input_report config.evt_type config.x_input_code
            (max (-32768) (min 32767 st.dx)) (decide (max (-32768) (min 32767 st.dy) = 0))]
         else []) ++
        (if max (-32768) (min 32767 st.dy) ≠ 0 then
          [Effect.input_report config.evt_type config.y_input_code
            (max (-32768) (min 32767 st.dy)) true]
         else [])) := by
  obtain ⟨dx, dy, ls, lr⟩ := st
  have hx0 : max (-32768) (min 32767 dx) = 0 ↔ dx = 0 := by omega
  have hy0 : max (-32768) (min 32767 dy) = 0 ↔ dy = 0 := by omega
  simp only [report_stage, clamp16_eq]
  by_cases hx : dx = 0 <;> by_cases hy : dy = 0 <;> by_cases hk : k.REPORT_INTERVAL_MIN > 0 <;>
    simp [hx, hy, hk, hx0, hy0]

theorem report_data_not_ready (k : Kconfig) (h : Header) (config : pixart_config)
    (t : Transport) (now : Int) (data : pixart_data) (st : report_statics)
    (hr : data.ready = false) :
    paw3395_report_data k h config t now data st = (-EBUSY, st, []) := by
  simp [paw3395_report_data, hr]

theorem report_data_read_error (k : Kconfig) (h : Header) (config : pixart_config)
    (t : Transport) (now : Int) (data : pixart_data) (st : report_statics)
    (hr : data.ready = true) (he : t.motion_burst_read.1 ≠ 0) :
    paw3395_report_data k h config t now data st =
      (t.motion_burst_read.1, st, [Effect.lib_motion_burst_read]) := by
  simp [paw3395_report_data, hr, he]

theorem report_data_zero (k : Kconfig) (h : Header) (config : pixart_config)
    (t : Transport) (now : Int) (data : pixart_data) (st : report_statics)
    (hr : data.ready = true) (he : t.motion_burst_read.1 = 0)
    (hx : burst_int16 t.motion_burst_read.2 h.DX_POS = 0)
    (hy : burst_int16 t.motion_burst_read.2 h.DY_POS = 0) :
    paw3395_report_data k h config t now data st = (0, st, [Effect.lib_motion_burst_read]) := by
  simp [paw3395_report_data, hr, he, hx, hy]

theorem report_data_held (k : Kconfig) (h : Header) (config : pixart_config)
    (t : Transport) (now : Int) (data : pixart_data) (st : report_statics)
    (hr : data.ready = true) (he : t.motion_burst_read.1 = 0)
    (hxy : ¬ (burst_int16 t.motion_burst_read.2 h.DX_POS = 0 ∧
      burst_int16 t.motion_burst_read.2 h.DY_POS = 0))
    (hheld : k.REPORT_INTERVAL_MIN > 0 ∧
      wrap64 (now - (pending k h t now st).last_rpt_time) < k.REPORT_INTERVAL_MIN) :
    paw3395_report_data k h config t now data st =
      (0, pending k h t now st, [Effect.lib_motion_burst_read]) := by
  unfold pending transformed_sample at *
  simp only [paw3395_report_data, hr, he]
  simp [hxy, hheld]

theorem report_data_due (k : Kconfig) (h : Header) (config : pixart_config)
    (t : Transport) (now : Int) (data : pixart_data) (st : report_statics)
    (hr : data.ready = true) (he : t.motion_burst_read.1 = 0)
    (hxy : ¬ (burst_int16 t.motion_burst_read.2 h.DX_POS = 0 ∧
      burst_int16 t.motion_burst_read.2 h.DY_POS = 0))
    (hdue : ¬ (k.REPORT_INTERVAL_MIN > 0 ∧
      wrap64 (now - (pending k h t now st).last_rpt_time) < k.REPORT_INTERVAL_MIN)) :
    paw3395_report_data k h config t now data st =
      (0, (report_stage k config now (pending k h t now st)).1,
        Effect.lib_motion_burst_read :: (report_stage k config now (pending k h t now st)).2) := by
  unfold pending transformed_sample at *
  simp only [paw3395_report_data, hr, he]
  simp [hxy, hdue]

theorem pending_last_rpt_time (k : Kconfig) (h : Header) (t : Transport) (now : Int)
    (st : report_statics) : (pending k h t now st).last_rpt_time = st.last_rpt_time := by
  simp only [pending, accumulate]
  split_ifs <;> rfl

theorem events_read_cons (l : List Effect) :
    events (Effect.lib_motion_burst_read :: l) = events l := by
  simp [events, Effect.is_event]

/-- The batch built by the report stage, for any clamped values: its events, its length and
its last element. -/
theorem events_batch (ty cx cy : Nat) (rx ry : Int) :
    events ((if rx ≠ 0 then [Effect.input_report ty cx rx (decide (ry = 0))] else []) ++
        (if ry ≠ 0 then [Effect.input_report ty cy ry true] else [])) =
      (if rx ≠ 0 then [Effect.input_report ty cx rx (decide (ry = 0))] else []) ++
        (if ry ≠ 0 then [Effect.input_report ty cy ry true] else []) := by
  by_cases hx : rx = 0 <;> by_cases hy : ry = 0 <;> simp [events, Effect.is_event, hx, hy]

/-- The events of one call of `paw3395_report_data`: none, or the batch of the report
stage run on the accumulator that holds the current sample. -/
theorem report_data_events (k : Kconfig) (h : Header) (config : pixart_config)
    (t : Transport) (now : Int) (data : pixart_data) (st : report_statics) :
    events (paw3395_report_data k h config t now data st).2.2 = [] ∨
      (paw3395_report_data k h config t now data st =
          (0, (report_stage k config now (pending k h t now st)).1,
            Effect.lib_motion_burst_read ::
              (report_stage k config now (pending k h t now st)).2) ∧
        data.ready = true ∧ t.motion_burst_read.1 = 0 ∧
        ¬ (burst_int16 t.motion_burst_read.2 h.DX_POS = 0 ∧
          burst_int16 t.motion_burst_read.2 h.DY_POS = 0) ∧
        ¬ (k.REPORT_INTERVAL_MIN > 0 ∧
          wrap64 (now - st.last_rpt_time) < k.REPORT_INTERVAL_MIN)) := by
  by_cases hr : data.ready = true
  · by_cases he : t.motion_burst_read.1 = 0
    · by_cases hxy : burst_int16 t.motion_burst_read.2 h.DX_POS = 0 ∧
          burst_int16 t.motion_burst_read.2 h.DY_POS = 0
      · left
        rw [report_data_zero k h config t now data st hr he hxy.1 hxy.2]
        rfl
      · by_cases hheld : k.REPORT_INTERVAL_MIN > 0 ∧
            wrap64 (now - (pending k h t now st).last_rpt_time) < k.REPORT_INTERVAL_MIN
        · left
          rw [report_data_held k h config t now data st hr he hxy hheld]
          rfl
        · right
          refine ⟨report_data_due k h config t now data st hr he hxy hheld, hr, he, hxy, ?_⟩
          rwa [pending_last_rpt_time] at hheld
    · left
      rw [report_data_read_error k h config t now data st hr he]
      rfl
  · left
    rw [report_data_not_ready k h config t now data st (by simpa using hr)]
    rfl

/-! ## Pipeline: the claims -/

/-- C3: whenever a call of `paw3395_report_data` emits events, they are exactly one event
per axis whose clamped accumulator is non-zero, X before Y, the X event with end-of-batch
false exactly when the Y value is non-zero (so a Y event follows), and the Y event with
its end-of-batch flag true; hence at most two events, the last one always with end-of-batch
true. In particular, with the report interval disabled, no axis transform and a zero accumulator,
a burst holding the bytes `05 00` at the X offset and `FD FF` at the Y offset emits exactly
X = 5 with end-of-batch false, then Y = -3 with end-of-batch true. -/
theorem report_data_event_batch (k : Kconfig) (h : Header) (config : pixart_config)
    (t : Transport) (now : Int) (data : pixart_data) (st : report_statics) :
    (events (paw3395_report_data k h config t now data st).2.2 ≠ [] →
      events (paw3395_report_data k h config t now data st).2.2 =
        (if max (-32768) (min 32767 (pending k h t now st).dx) ≠ 0 then
          [Effect.input_report config.evt_type config.x_input_code
            (max (-32768) (min 32767 (pending k h t now st).dx))
            (decide (max (-32768) (min 32767 (pending k h t now st).dy) = 0))]
         else []) ++
        (if max (-32768) (min 32767 (pending k h t now st).dy) ≠ 0 then
          [Effect.input_report config.evt_type config.y_input_code
            (max (-32768) (min 32767 (pending k h t now st).dy)) true]
         else [])) ∧
    (events (paw3395_report_data k h config t now data st).2.2).length ≤ 2 ∧
    (∀ ty c v sy, (events (paw3395_report_data k h config t now data st).2.2).getLast? =
        some (Effect.input_report ty c v sy) → sy = true) ∧
    (k.REPORT_INTERVAL_MIN ≤ 0 → k.SWAP_XY = false → k.INVERT_X = false →
      k.INVERT_Y = false → st.dx = 0 → st.dy = 0 → data.ready = true →
      t.motion_burst_read.1 = 0 →
      t.motion_burst_read.2 h.DX_POS = 5 → t.motion_burst_read.2 (h.DX_POS + 1) = 0 →
      t.motion_burst_read.2 h.DY_POS = 253 → t.motion_burst_read.2 (h.DY_POS + 1) = 255 →
      events (paw3395_report_data k h config t now data st).2.2 =
        [Effect.input_report config.evt_type config.x_input_code 5 false,
         Effect.input_report config.evt_type config.y_input_code (-3) true]) := by
  have hev := report_data_events k h config t now data st
  have key : events (paw3395_report_data k h config t now data st).2.2 = [] ∨
      events (paw3395_report_data k h config t now data st).2.2 =
        (if max (-32768) (min 32767 (pending k h t now st).dx) ≠ 0 then
          [Effect.input_report config.evt_type config.x_input_code
            (max (-32768) (min 32767 (pending k h t now st).dx))
            (decide (max (-32768) (min 32767 (pending k h t now st).dy) = 0))]
         else []) ++
        (if max (-32768) (min 32767 (pending k h t now st).dy) ≠ 0 then
          [Effect.input_report config.evt_type config.y_input_code
            (max (-32768) (min 32767 (pending k h t now st).dy)) true]
         else []) := by
    rcases hev with h0 | ⟨h1, -⟩
    · exact Or.inl h0
    · right
      rw [h1, report_stage_eq, events_read_cons, events_batch]
  refine ⟨fun hne => key.resolve_left hne, ?_, ?_, ?_⟩
  · rcases key with h0 | h1
    · simp [h0]
    · rw [h1]
      split_ifs <;> simp
  · intro ty c v sy hl
    rcases key with h0 | h1
    · simp [h0] at hl
    · rw [h1] at hl
      by_cases hx : max (-32768) (min 32767 (pending k h t now st).dx) = 0 <;>
        by_cases hy : max (-32768) (min 32767 (pending k h t now st).dy) = 0
      · simp [hx, hy] at hl
      · simp [hx, hy] at hl
        exact hl.2.2.2
      · simp [hx, hy] at hl
        exact hl.2.2.2
      · simp [hx, hy, List.getLast?_cons_cons] at hl
        exact hl.2.2.2
  · intro hk hs hix hiy hdx hdy hr he bx0 bx1 by0 by1
    have hx : burst_int16 t.motion_burst_read.2 h.DX_POS = 5 := by
      simp only [burst_int16, bx0, bx1]; decide
    have hy : burst_int16 t.motion_burst_read.2 h.DY_POS = -3 := by
      simp only [burst_int16, by0, by1]; decide
    have hp : pending k h t now st = { st with dx := 5, dy := -3 } := by
      simp only [pending, transformed_sample, accumulate, axis_transform, hx, hy, hs, hix, hiy,
        hdx, hdy]
      rw [if_neg (by omega)]
      simp [wrap64, hdx, hdy]
    rw [report_data_due k h config t now data st hr he (by rw [hx, hy]; simp)
      (by intro hc; omega), report_stage_eq, events_read_cons, events_batch, hp]
    simp

/-- Witness of C3: the example burst `05 00 FD FF` on a ready device with zero statics
emits X = 5 then Y = -3; with a 10 ms interval, a fresh accumulator of 32767 and a due
sample X = 7233, the batch is the single event X = 32767 with end-of-batch true. -/
theorem report_data_event_batch_witness :
    events (paw3395_report_data ex_kconfig ex_header ex_config ex_transport 0
        ⟨true, 3, 0⟩ ⟨0, 0, 0, 0⟩).2.2 =
      [Effect.input_report 2 0 5 false, Effect.input_report 2 1 (-3) true] ∧
    (events (paw3395_report_data ex_kconfig ex_header ex_config ex_transport 0
        ⟨true, 3, 0⟩ ⟨0, 0, 0, 0⟩).2.2).length ≤ 2 ∧
    events (paw3395_report_data ex_kconfig_10ms ex_header ex_config (ex_sample 7233 0) 10
        ⟨true, 3, 0⟩ ⟨32767, 0, 5, 0⟩).2.2 = [Effect.input_report 2 0 32767 true] :=
  ⟨(report_data_event_batch ex_kconfig ex_header ex_config ex_transport 0
      ⟨true, 3, 0⟩ ⟨0, 0, 0, 0⟩).2.2.2
    (by decide) rfl rfl rfl rfl rfl rfl rfl (by decide) (by decide) (by decide) (by decide),
   (report_data_event_batch ex_kconfig ex_header ex_config ex_transport 0
      ⟨true, 3, 0⟩ ⟨0, 0, 0, 0⟩).2.1,
   ((report_data_event_batch ex_kconfig_10ms ex_header ex_config (ex_sample 7233 0) 10
      ⟨true, 3, 0⟩ ⟨32767, 0, 5, 0⟩).1 (by decide)).trans (by decide)⟩

/-- C4, as stated, fails: with swap and invert-X enabled and invert-Y disabled the raw sample
(5, -3) is not mapped to (3, -5). -/
theorem swap_then_negate_x_is_not_3_m5 :
    axis_transform ex_kconfig_swap_invert_x 5 (-3) ≠ (3, -5) := by
  decide

/-- C4, amended: with swap and invert-X enabled and invert-Y disabled, the transform maps
the raw sample (5, -3) to (3, 5): the swap gives (-3, 5), the X negation gives (3, 5), and Y
is left alone. So does the transform stage on a burst that decodes to (5, -3). -/
theorem axis_transform_swap_invert_x (k : Kconfig) (h : Header) (t : Transport)
    (hs : k.SWAP_XY = true) (hx : k.INVERT_X = true) (hy : k.INVERT_Y = false) :
    axis_transform k 5 (-3) = (3, 5) ∧
      (burst_int16 t.motion_burst_read.2 h.DX_POS = 5 →
        burst_int16 t.motion_burst_read.2 h.DY_POS = -3 →
        transformed_sample k h t = (3, 5)) := by
  have h1 : axis_transform k 5 (-3) = (3, 5) := by
    simp [axis_transform, hs, hx, hy, wrap16]
  exact ⟨h1, fun bx bY => by rw [transformed_sample, bx, bY, h1]⟩

/-- Witness of C4 (amended): the build options `ex_kconfig_swap_invert_x` and the burst of
`ex_transport`. -/
theorem axis_transform_swap_invert_x_witness :
    axis_transform ex_kconfig_swap_invert_x 5 (-3) = (3, 5) ∧
      transformed_sample ex_kconfig_swap_invert_x ex_header ex_transport = (3, 5) :=
  ⟨(axis_transform_swap_invert_x ex_kconfig_swap_invert_x ex_header ex_transport
      rfl rfl rfl).1,
    (axis_transform_swap_invert_x ex_kconfig_swap_invert_x ex_header ex_transport
      rfl rfl rfl).2 (by decide) (by decide)⟩

/-- C5: when a call of `paw3395_report_data` reaches the report stage (device ready, burst
read, non-zero sample, report due), the events are the accumulators that hold the current
sample clamped to `[-32768, 32767]`, one event per non-zero axis, and both accumulators are
zero after the call. An accumulator of 40000 is emitted as 32767 and one of -40000 as
-32768, on either axis. -/
theorem report_data_clamp (k : Kconfig) (h : Header) (config : pixart_config)
    (t : Transport) (now : Int) (data : pixart_data) (st : report_statics)
    (hr : data.ready = true) (he : t.motion_burst_read.1 = 0)
    (hxy : ¬ (burst_int16 t.motion_burst_read.2 h.DX_POS = 0 ∧
      burst_int16 t.motion_burst_read.2 h.DY_POS = 0))
    (hdue : ¬ (k.REPORT_INTERVAL_MIN > 0 ∧
      wrap64 (now - st.last_rpt_time) < k.REPORT_INTERVAL_MIN)) :
    (paw3395_report_data k h config t now data st).2.2 =
      Effect.lib_motion_burst_read ::
        ((if max (-32768) (min 32767 (pending k h t now st).dx) ≠ 0 then
          [Effect.input_report config.evt_type config.x_input_code
            (max (-32768) (min 32767 (pending k h t now st).dx))
            (decide (max (-32768) (min 32767 (pending k h t now st).dy) = 0))]
         else []) ++
        (if max (-32768) (min 32767 (pending k h t now st).dy) ≠ 0 then
          [Effect.input_report config.evt_type config.y_input_code
            (max (-32768) (min 32767 (pending k h t now st).dy)) true]
         else [])) ∧
    (paw3395_report_data k h config t now data st).2.1.dx = 0 ∧
    (paw3395_report_data k h config t now data st).2.1.dy = 0 ∧
    ((pending k h t now st).dx = 40000 →
      ∃ sy, Effect.input_report config.evt_type config.x_input_code 32767 sy ∈
        (paw3395_report_data k h config t now data st).2.2) ∧
    ((pending k h t now st).dx = -40000 →
      ∃ sy, Effect.input_report config.evt_type config.x_input_code (-32768) sy ∈
        (paw3395_report_data k h config t now data st).2.2) ∧
    ((pending k h t now st).dy = 40000 →
      Effect.input_report config.evt_type config.y_input_code 32767 true ∈
        (paw3395_report_data k h config t now data st).2.2) ∧
    ((pending k h t now st).dy = -40000 →
      Effect.input_report config.evt_type config.y_input_code (-32768) true ∈
        (paw3395_report_data k h config t now data st).2.2) := by
  have hd := report_data_due k h config t now data st hr he hxy
    (by rwa [pending_last_rpt_time])
  rw [hd, report_stage_eq]
  refine ⟨rfl, rfl, rfl, ?_, ?_, ?_, ?_⟩
  · intro hx
    exact ⟨decide (max (-32768) (min 32767 (pending k h t now st).dy) = 0), by simp [hx]⟩
  · intro hx
    exact ⟨decide (max (-32768) (min 32767 (pending k h t now st).dy) = 0), by simp [hx]⟩
  · intro hy
    simp [hy]
  · intro hy
    simp [hy]

/-- Witness of C5: with a 10 ms interval, an accumulator of 32767 that is still fresh and a
sample X = 7233 arriving when the report is due: the accumulator reaches 40000 and the
event carries 32767. -/
theorem report_data_clamp_witness :
    (pending ex_kconfig_10ms ex_header (ex_sample 7233 0) 10 ⟨32767, 0, 5, 0⟩).dx = 40000 ∧
      (paw3395_report_data ex_kconfig_10ms ex_header ex_config (ex_sample 7233 0) 10
        ⟨true, 3, 0⟩ ⟨32767, 0, 5, 0⟩).2.2 =
        [Effect.lib_motion_burst_read, Effect.input_report 2 0 32767 true] ∧
      (paw3395_report_data ex_kconfig_10ms ex_header ex_config (ex_sample 7233 0) 10
        ⟨true, 3, 0⟩ ⟨32767, 0, 5, 0⟩).2.1.dx = 0 ∧
      (paw3395_report_data ex_kconfig_10ms ex_header ex_config (ex_sample 7233 0) 10
        ⟨true, 3, 0⟩ ⟨32767, 0, 5, 0⟩).2.1.dy = 0 ∧
      ∃ sy, Effect.input_report 2 0 32767 sy ∈
        (paw3395_report_data ex_kconfig_10ms ex_header ex_config (ex_sample 7233 0) 10
          ⟨true, 3, 0⟩ ⟨32767, 0, 5, 0⟩).2.2 := by
  have hp : (pending ex_kconfig_10ms ex_header (ex_sample 7233 0) 10 ⟨32767, 0, 5, 0⟩).dx =
      40000 := by decide
  have w := report_data_clamp ex_kconfig_10ms ex_header ex_config (ex_sample 7233 0) 10
    ⟨true, 3, 0⟩ ⟨32767, 0, 5, 0⟩ rfl rfl (by decide) (by decide)
  exact ⟨hp, w.1.trans (by decide), w.2.1, w.2.2.1, w.2.2.2.1 hp⟩

/-- C6: on a ready device, for every state of the statics, every build configuration and
every time, a call whose burst is read and decodes to X = 0 and Y = 0 returns 0, emits no
event and leaves `dx`, `dy`, `last_smp_time` and `last_rpt_time` unchanged. -/
theorem report_data_no_motion (k : Kconfig) (h : Header) (config : pixart_config)
    (t : Transport) (now : Int) (data : pixart_data) (st : report_statics)
    (hr : data.ready = true) (he : t.motion_burst_read.1 = 0)
    (hx : burst_int16 t.motion_burst_read.2 h.DX_POS = 0)
    (hy : burst_int16 t.motion_burst_read.2 h.DY_POS = 0) :
    (paw3395_report_data k h config t now data st).1 = 0 ∧
      events (paw3395_report_data k h config t now data st).2.2 = [] ∧
      (paw3395_report_data k h config t now data st).2.1.dx = st.dx ∧
      (paw3395_report_data k h config t now data st).2.1.dy = st.dy ∧
      (paw3395_report_data k h config t now data st).2.1.last_smp_time = st.last_smp_time ∧
      (paw3395_report_data k h config t now data st).2.1.last_rpt_time = st.last_rpt_time := by
  rw [report_data_zero k h config t now data st hr he hx hy]
  exact ⟨rfl, rfl, rfl, rfl, rfl, rfl⟩

/-- Witness of C6: a zero burst at time 7 with a 10 ms interval and non-trivial statics. -/
theorem report_data_no_motion_witness :
    (paw3395_report_data ex_kconfig_10ms ex_header ex_config (ex_sample 0 0) 7
        ⟨true, 3, 0⟩ ⟨4, -2, 5, 1⟩).1 = 0 ∧
      events (paw3395_report_data ex_kconfig_10ms ex_header ex_config (ex_sample 0 0) 7
        ⟨true, 3, 0⟩ ⟨4, -2, 5, 1⟩).2.2 = [] ∧
      (paw3395_report_data ex_kconfig_10ms ex_header ex_config (ex_sample 0 0) 7
        ⟨true, 3, 0⟩ ⟨4, -2, 5, 1⟩).2.1.dx = 4 ∧
      (paw3395_report_data ex_kconfig_10ms ex_header ex_config (ex_sample 0 0) 7
        ⟨true, 3, 0⟩ ⟨4, -2, 5, 1⟩).2.1.dy = -2 ∧
      (paw3395_report_data ex_kconfig_10ms ex_header ex_config (ex_sample 0 0) 7
        ⟨true, 3, 0⟩ ⟨4, -2, 5, 1⟩).2.1.last_smp_time = 5 ∧
      (paw3395_report_data ex_kconfig_10ms ex_header ex_config (ex_sample 0 0) 7
        ⟨true, 3, 0⟩ ⟨4, -2, 5, 1⟩).2.1.last_rpt_time = 1 :=
  report_data_no_motion ex_kconfig_10ms ex_header ex_config (ex_sample 0 0) 7
    ⟨true, 3, 0⟩ ⟨4, -2, 5, 1⟩ rfl rfl (by decide) (by decide)

/-- C9: `paw3395_report_data` is atomic on failure. On a device that is not ready it returns
`-EBUSY` and makes no call at all (no burst read, no event); when the burst read returns an
error it returns that error, and the burst read is its only call (no event); in both cases
the four statics are unchanged. -/
theorem report_data_failure_atomic (k : Kconfig) (h : Header) (config : pixart_config)
    (t : Transport) (now : Int) (data : pixart_data) (st : report_statics) :
    (data.ready = false →
      (paw3395_report_data k h config t now data st).1 = -EBUSY ∧
      (paw3395_report_data k h config t now data st).2.2 = [] ∧
      (paw3395_report_data k h config t now data st).2.1 = st) ∧
    (data.ready = true → t.motion_burst_read.1 ≠ 0 →
      (paw3395_report_data k h config t now data st).1 = t.motion_burst_read.1 ∧
      (paw3395_report_data k h config t now data st).2.2 = [Effect.lib_motion_burst_read] ∧
      events (paw3395_report_data k h config t now data st).2.2 = [] ∧
      (paw3395_report_data k h config t now data st).2.1 = st) := by
  constructor
  · intro hr
    rw [report_data_not_ready k h config t now data st hr]
    exact ⟨rfl, rfl, rfl⟩
  · intro hr he
    rw [report_data_read_error k h config t now data st hr he]
    exact ⟨rfl, rfl, rfl, rfl⟩

/-- Witness of C9: a device that is not ready, and a ready device whose burst read fails
with `-EIO`, both with a sample that would otherwise be reported. -/
theorem report_data_failure_atomic_witness :
    ((paw3395_report_data ex_kconfig ex_header ex_config ex_transport 0
        ⟨false, 1, 0⟩ ⟨4, -2, 5, 1⟩).1 = -EBUSY ∧
      (paw3395_report_data ex_kconfig ex_header ex_config ex_transport 0
        ⟨false, 1, 0⟩ ⟨4, -2, 5, 1⟩).2.2 = [] ∧
      (paw3395_report_data ex_kconfig ex_header ex_config ex_transport 0
        ⟨false, 1, 0⟩ ⟨4, -2, 5, 1⟩).2.1 = ⟨4, -2, 5, 1⟩) ∧
    ((paw3395_report_data ex_kconfig ex_header ex_config ex_transport_bad_read 0
        ⟨true, 3, 0⟩ ⟨4, -2, 5, 1⟩).1 = - EIO ∧
      (paw3395_report_data ex_kconfig ex_header ex_config ex_transport_bad_read 0
        ⟨true, 3, 0⟩ ⟨4, -2, 5, 1⟩).2.2 = [Effect.lib_motion_burst_read] ∧
      events (paw3395_report_data ex_kconfig ex_header ex_config ex_transport_bad_read 0
        ⟨true, 3, 0⟩ ⟨4, -2, 5, 1⟩).2.2 = [] ∧
      (paw3395_report_data ex_kconfig ex_header ex_config ex_transport_bad_read 0
        ⟨true, 3, 0⟩ ⟨4, -2, 5, 1⟩).2.1 = ⟨4, -2, 5, 1⟩) :=
  ⟨(report_data_failure_atomic ex_kconfig ex_header ex_config ex_transport 0
      ⟨false, 1, 0⟩ ⟨4, -2, 5, 1⟩).1 rfl,
    (report_data_failure_atomic ex_kconfig ex_header ex_config ex_transport_bad_read 0
      ⟨true, 3, 0⟩ ⟨4, -2, 5, 1⟩).2 rfl (by decide)⟩

/-- The transport failures that the step actions do turn into an error of the step:
every primitive of the power-up and firmware-load actions, and `set_cpi`. -/
theorem step_actions_propagate (config : pixart_config) (t : Transport) :
    (t.power_up_reset ≠ 0 → (paw3395_async_init_power_up t).1 ≠ 0) ∧
    (t.verify_product_id ≠ 0 → (paw3395_async_init_fw_load t).1 ≠ 0) ∧
    (t.power_up_init_regs ≠ 0 → (paw3395_async_init_fw_load t).1 ≠ 0) ∧
    (t.clear_motion_pin_state ≠ 0 → (paw3395_async_init_fw_load t).1 ≠ 0) ∧
    (t.set_cpi config.cpi ≠ 0 → (paw3395_async_init_configure config t).1 ≠ 0) ∧
    (paw3395_async_init_configure config t).1 = t.set_cpi config.cpi := by
  simp only [paw3395_async_init_power_up, paw3395_async_init_fw_load,
    paw3395_async_init_configure, EIO]
  refine ⟨?_, ?_, ?_, ?_, ?_, ?_⟩ <;> intros <;> split_ifs <;> simp_all

/-- C10, the code at the failing input: with `force_awake` set, `set_performance` failing
with `-EIO` and `set_cpi` succeeding, `paw3395_async_init_configure` calls both primitives
and returns 0, and the init chain ends with `ready = true` and no error recorded. -/
theorem configure_drops_set_performance_error :
    ex_config.force_awake = true ∧
    ex_transport_bad_perf.set_performance true = - EIO ∧
    paw3395_set_performance ex_config ex_transport_bad_perf true =
      (- EIO, [Effect.lib_set_performance true]) ∧
    paw3395_async_init_configure ex_config ex_transport_bad_perf =
      (0, [Effect.lib_set_performance true, Effect.lib_set_cpi 800]) ∧
    (init_chain ex_kconfig ex_config [ex_transport, ex_transport, ex_transport_bad_perf]
        ⟨pixart_data.zero, true, []⟩).map (fun s => s.data) =
      some { ready := true, async_init_step := 3, err := 0 } := by
  decide

theorem report_stage_last_smp_time (k : Kconfig) (config : pixart_config) (now : Int)
    (st : report_statics) :
    (report_stage k config now st).1.last_smp_time = st.last_smp_time := by
  rw [report_stage_eq]

theorem pending_last_smp_time (k : Kconfig) (h : Header) (t : Transport) (now : Int)
    (st : report_statics) (hI : k.REPORT_INTERVAL_MIN > 0) :
    (pending k h t now st).last_smp_time = now := by
  simp only [pending, accumulate, hI, if_true]

theorem transformed_sample_range (k : Kconfig) (h : Header) (t : Transport) :
    (-32768 ≤ (transformed_sample k h t).1 ∧ (transformed_sample k h t).1 ≤ 32767) ∧
      (-32768 ≤ (transformed_sample k h t).2 ∧ (transformed_sample k h t).2 ≤ 32767) :=
  axis_transform_range k _ _ (burst_int16_range _ _) (burst_int16_range _ _)

/-- The accumulator that holds the current sample, in closed form. -/
theorem pending_acc (k : Kconfig) (h : Header) (t : Transport) (now : Int)
    (st : report_statics) :
    (pending k h t now st).dx =
        wrap64 ((if k.REPORT_INTERVAL_MIN > 0 ∧
            k.REPORT_INTERVAL_MIN ≤ wrap64 (now - st.last_smp_time) then 0 else st.dx) +
          (transformed_sample k h t).1) ∧
      (pending k h t now st).dy =
        wrap64 ((if k.REPORT_INTERVAL_MIN > 0 ∧
            k.REPORT_INTERVAL_MIN ≤ wrap64 (now - st.last_smp_time) then 0 else st.dy) +
          (transformed_sample k h t).2) := by
  simp only [pending, accumulate]
  by_cases hI : k.REPORT_INTERVAL_MIN > 0 <;>
    by_cases hp : k.REPORT_INTERVAL_MIN ≤ wrap64 (now - st.last_smp_time) <;>
    simp [hI, hp]

/-- The events of a call, whatever its path, when the sample is known: none, or the batch
of the clamped accumulator that holds the current sample. -/
theorem report_data_events_batch (k : Kconfig) (h : Header) (config : pixart_config)
    (t : Transport) (now : Int) (data : pixart_data) (st : report_statics) :
    events (paw3395_report_data k h config t now data st).2.2 = [] ∨
      events (paw3395_report_data k h config t now data st).2.2 =
        (if max (-32768) (min 32767 (pending k h t now st).dx) ≠ 0 then
          [Effect.input_report config.evt_type config.x_input_code
            (max (-32768) (min 32767 (pending k h t now st).dx))
            (decide (max (-32768) (min 32767 (pending k h t now st).dy) = 0))]
         else []) ++
        (if max (-32768) (min 32767 (pending k h t now st).dy) ≠ 0 then
          [Effect.input_report config.evt_type config.y_input_code
            (max (-32768) (min 32767 (pending k h t now st).dy)) true]
         else []) := by
  rcases report_data_events k h config t now data st with h0 | ⟨h1, -⟩
  · exact Or.inl h0
  · right
    rw [h1, report_stage_eq, events_read_cons, events_batch]

/-- C8: with a minimum report interval `I > 0`, on a ready device, for every state of the
statics and every non-zero sample that is read (times being uptime values):
if `now - last_smp_time ≥ I` the old accumulator is discarded, so that the accumulator right
after the addition is the transformed sample alone and any events emitted are the clamp of
that single sample; if `now - last_smp_time < I` the old accumulator is kept and the sample
is added to it (exactly, whenever the sum fits `int64_t`); in both cases `last_smp_time` is
`now` after the call. -/
theorem report_data_stale_purge (k : Kconfig) (h : Header) (config : pixart_config)
    (t : Transport) (now : Int) (data : pixart_data) (st : report_statics)
    (hI : k.REPORT_INTERVAL_MIN > 0) (hr : data.ready = true)
    (he : t.motion_burst_read.1 = 0)
    (hxy : ¬ (burst_int16 t.motion_burst_read.2 h.DX_POS = 0 ∧
      burst_int16 t.motion_burst_read.2 h.DY_POS = 0))
    (hnow : is_uptime now) (hls : is_uptime st.last_smp_time) :
    (k.REPORT_INTERVAL_MIN ≤ now - st.last_smp_time →
      (pending k h t now st).dx = (transformed_sample k h t).1 ∧
      (pending k h t now st).dy = (transformed_sample k h t).2 ∧
      (events (paw3395_report_data k h config t now data st).2.2 = [] ∨
        events (paw3395_report_data k h config t now data st).2.2 =
          (if max (-32768) (min 32767 (transformed_sample k h t).1) ≠ 0 then
            [Effect.input_report config.evt_type config.x_input_code
              (max (-32768) (min 32767 (transformed_sample k h t).1))
              (decide (max (-32768) (min 32767 (transformed_sample k h t).2) = 0))]
           else []) ++
          (if max (-32768) (min 32767 (transformed_sample k h t).2) ≠ 0 then
            [Effect.input_report config.evt_type config.y_input_code
              (max (-32768) (min 32767 (transformed_sample k h t).2)) true]
           else []))) ∧
    (now - st.last_smp_time < k.REPORT_INTERVAL_MIN →
      (pending k h t now st).dx = wrap64 (st.dx + (transformed_sample k h t).1) ∧
      (pending k h t now st).dy = wrap64 (st.dy + (transformed_sample k h t).2) ∧
      (is_int64 (st.dx + (transformed_sample k h t).1) →
        (pending k h t now st).dx = st.dx + (transformed_sample k h t).1) ∧
      (is_int64 (st.dy + (transformed_sample k h t).2) →
        (pending k h t now st).dy = st.dy + (transformed_sample k h t).2)) ∧
    (pending k h t now st).last_smp_time = now ∧
    (paw3395_report_data k h config t now data st).2.1.last_smp_time = now := by
  have hsub := wrap64_sub_uptime now st.last_smp_time hnow hls
  have hacc := pending_acc k h t now st
  rw [hsub] at hacc
  have hrng := transformed_sample_range k h t
  have hsmp := pending_last_smp_time k h t now st hI
  refine ⟨?_, ?_, hsmp, ?_⟩
  · intro hp
    have hdx : (pending k h t now st).dx = (transformed_sample k h t).1 := by
      rw [hacc.1, if_pos ⟨hI, hp⟩]
      exact wrap64_int16 _ hrng.1.1 hrng.1.2
    have hdy : (pending k h t now st).dy = (transformed_sample k h t).2 := by
      rw [hacc.2, if_pos ⟨hI, hp⟩]
      exact wrap64_int16 _ hrng.2.1 hrng.2.2
    refine ⟨hdx, hdy, ?_⟩
    have hb := report_data_events_batch k h config t now data st
    rwa [hdx, hdy] at hb
  · intro hp
    have hdx : (pending k h t now st).dx = wrap64 (st.dx + (transformed_sample k h t).1) := by
      rw [hacc.1, if_neg (by omega)]
    have hdy : (pending k h t now st).dy = wrap64 (st.dy + (transformed_sample k h t).2) := by
      rw [hacc.2, if_neg (by omega)]
    exact ⟨hdx, hdy, fun hi => by rw [hdx, wrap64_id _ hi],
      fun hi => by rw [hdy, wrap64_id _ hi]⟩
  · by_cases hheld : k.REPORT_INTERVAL_MIN > 0 ∧
        wrap64 (now - (pending k h t now st).last_rpt_time) < k.REPORT_INTERVAL_MIN
    · rw [report_data_held k h config t now data st hr he hxy hheld]
      exact hsmp
    · rw [report_data_due k h config t now data st hr he hxy hheld]
      simp only [report_stage_last_smp_time]
      exact hsmp

/-- Witness of C8: a 10 ms interval and the example burst (5, -3) on the statics
`dx = 100, dy = -50, last_smp_time = 5, last_rpt_time = 0`; at time 20 the old accumulator
is stale and the report carries the sample alone, at time 7 it is kept. -/
theorem report_data_stale_purge_witness :
    ((pending ex_kconfig_10ms ex_header ex_transport 20 ⟨100, -50, 5, 0⟩).dx = 5 ∧
      (pending ex_kconfig_10ms ex_header ex_transport 20 ⟨100, -50, 5, 0⟩).dy = -3 ∧
      (paw3395_report_data ex_kconfig_10ms ex_header ex_config ex_transport 20
        ⟨true, 3, 0⟩ ⟨100, -50, 5, 0⟩).2.1.last_smp_time = 20) ∧
    ((pending ex_kconfig_10ms ex_header ex_transport 7 ⟨100, -50, 5, 0⟩).dx = 100 + 5 ∧
      (pending ex_kconfig_10ms ex_header ex_transport 7 ⟨100, -50, 5, 0⟩).dy = -50 + -3 ∧
      (paw3395_report_data ex_kconfig_10ms ex_header ex_config ex_transport 7
        ⟨true, 3, 0⟩ ⟨100, -50, 5, 0⟩).2.1.last_smp_time = 7) := by
  have a := report_data_stale_purge ex_kconfig_10ms ex_header ex_config ex_transport 20
    ⟨true, 3, 0⟩ ⟨100, -50, 5, 0⟩ (by decide) rfl rfl (by decide) (by decide) (by decide)
  have b := report_data_stale_purge ex_kconfig_10ms ex_header ex_config ex_transport 7
    ⟨true, 3, 0⟩ ⟨100, -50, 5, 0⟩ (by decide) rfl rfl (by decide) (by decide) (by decide)
  have ha := a.1 (by decide)
  have hb := b.2.1 (by decide)
  have ts : transformed_sample ex_kconfig_10ms ex_header ex_transport = (5, -3) := by decide
  rw [ts] at ha hb
  exact ⟨⟨ha.1, ha.2.1, a.2.2.2⟩, ⟨hb.2.2.1 (by decide), hb.2.2.2 (by decide), b.2.2.2⟩⟩

/-- The report time stamp after a call: set to `now` by an emitting call, which is at least
one interval after the previous stamp, and untouched by a call that emits nothing. -/
theorem report_data_rpt_time (k : Kconfig) (h : Header) (config : pixart_config)
    (t : Transport) (now : Int) (data : pixart_data) (st : report_statics)
    (hI : k.REPORT_INTERVAL_MIN > 0) (hnow : is_uptime now)
    (hlr : is_uptime st.last_rpt_time) :
    (events (paw3395_report_data k h config t now data st).2.2 ≠ [] →
      k.REPORT_INTERVAL_MIN ≤ now - st.last_rpt_time ∧
      (paw3395_report_data k h config t now data st).2.1.last_rpt_time = now) ∧
    (events (paw3395_report_data k h config t now data st).2.2 = [] →
      (paw3395_report_data k h config t now data st).2.1.last_rpt_time =
        st.last_rpt_time) := by
  have hsub := wrap64_sub_uptime now st.last_rpt_time hnow hlr
  by_cases hr : data.ready = true
  · by_cases he : t.motion_burst_read.1 = 0
    · by_cases hxy : burst_int16 t.motion_burst_read.2 h.DX_POS = 0 ∧
          burst_int16 t.motion_burst_read.2 h.DY_POS = 0
      · rw [report_data_zero k h config t now data st hr he hxy.1 hxy.2]
        exact ⟨fun hne => absurd rfl hne, fun _ => rfl⟩
      · by_cases hheld : k.REPORT_INTERVAL_MIN > 0 ∧
            wrap64 (now - (pending k h t now st).last_rpt_time) < k.REPORT_INTERVAL_MIN
        · rw [report_data_held k h config t now data st hr he hxy hheld]
          exact ⟨fun hne => absurd rfl hne, fun _ => pending_last_rpt_time k h t now st⟩
        · rw [report_data_due k h config t now data st hr he hxy hheld]
          rw [pending_last_rpt_time, hsub] at hheld
          have hge : k.REPORT_INTERVAL_MIN ≤ now - st.last_rpt_time := by
            by_contra hc
            exact hheld ⟨hI, by omega⟩
          rw [report_stage_eq, events_read_cons, events_batch]
          simp only [pending_last_rpt_time]
          have hx0 : max (-32768) (min 32767 (pending k h t now st).dx) = 0 ↔
              (pending k h t now st).dx = 0 := by omega
          have hy0 : max (-32768) (min 32767 (pending k h t now st).dy) = 0 ↔
              (pending k h t now st).dy = 0 := by omega
          by_cases hx : (pending k h t now st).dx = 0 <;>
            by_cases hy : (pending k h t now st).dy = 0 <;>
            simp [hx, hy, hx0, hy0, hI, hge]
    · rw [report_data_read_error k h config t now data st hr he]
      exact ⟨fun hne => absurd rfl hne, fun _ => rfl⟩
  · rw [report_data_not_ready k h config t now data st (by simpa using hr)]
    exact ⟨fun hne => absurd rfl hne, fun _ => rfl⟩

/-- In a run of calls, every emitting call is at least one interval after the report time
stamp the run started with, and any two emitting calls are at least one interval apart. -/
theorem report_run_spacing (k : Kconfig) (h : Header) (config : pixart_config)
    (data : pixart_data) (hI : k.REPORT_INTERVAL_MIN > 0) :
    ∀ (cs : List (Int × Transport)) (st : report_statics), is_uptime st.last_rpt_time →
      (∀ c ∈ cs, is_uptime c.1) →
      (∀ o ∈ (report_run k h config data st cs).1, emits o = true →
        k.REPORT_INTERVAL_MIN ≤ o.1 - st.last_rpt_time) ∧
      ((report_run k h config data st cs).1.filter emits).Pairwise
        (fun a b => k.REPORT_INTERVAL_MIN ≤ b.1 - a.1) := by
  intro cs
  induction cs with
  | nil =>
    intro st _ _
    simp [report_run]
  | cons c cs ih =>
    intro st hlr hcs
    have hc : is_uptime c.1 := hcs c (List.mem_cons_self _ _)
    have hrest : ∀ c' ∈ cs, is_uptime c'.1 := fun c' hc' => hcs c' (List.mem_cons_of_mem _ hc')
    obtain ⟨hem, hq⟩ := report_data_rpt_time k h config c.2 c.1 data st hI hc hlr
    by_cases hE : events (paw3395_report_data k h config c.2 c.1 data st).2.2 = []
    · -- the head call emits nothing
      have hlr' := hq hE
      obtain ⟨ih1, ih2⟩ := ih (paw3395_report_data k h config c.2 c.1 data st).2.1
        (by rw [hlr']; exact hlr) hrest
      rw [hlr'] at ih1
      have hne : emits (c.1, (paw3395_report_data k h config c.2 c.1 data st).1,
          (paw3395_report_data k h config c.2 c.1 data st).2.2) = false := by
        simp [emits, hE]
      constructor
      · intro o ho he
        simp only [report_run, List.mem_cons] at ho
        rcases ho with rfl | ho
        · rw [hne] at he; cases he
        · exact ih1 o ho he
      · simp only [report_run, List.filter_cons, hne]
        exact ih2
    · -- the head call emits
      obtain ⟨hge, hlr'⟩ := hem hE
      obtain ⟨ih1, ih2⟩ := ih (paw3395_report_data k h config c.2 c.1 data st).2.1
        (by rw [hlr']; exact hc) hrest
      rw [hlr'] at ih1
      have hyes : emits (c.1, (paw3395_report_data k h config c.2 c.1 data st).1,
          (paw3395_report_data k h config c.2 c.1 data st).2.2) = true := by
        simpa [emits] using hE
      constructor
      · intro o ho he
        simp only [report_run, List.mem_cons] at ho
        rcases ho with rfl | ho
        · exact hge
        · have := ih1 o ho he
          omega
      · simp only [report_run, List.filter_cons, hyes, if_true, List.pairwise_cons]
        refine ⟨?_, ih2⟩
        intro b hb
        rw [List.mem_filter] at hb
        exact ih1 b hb.1 hb.2

/-- The statics right after the accumulation, in closed form, when the interval is
enforced. -/
theorem pending_eq (k : Kconfig) (h : Header) (t : Transport) (now : Int)
    (st : report_statics) (hI : k.REPORT_INTERVAL_MIN > 0) :
    pending k h t now st =
      { dx := wrap64 ((if k.REPORT_INTERVAL_MIN ≤ wrap64 (now - st.last_smp_time) then 0
            else st.dx) + (transformed_sample k h t).1)
        dy := wrap64 ((if k.REPORT_INTERVAL_MIN ≤ wrap64 (now - st.last_smp_time) then 0
            else st.dy) + (transformed_sample k h t).2)
        last_smp_time := now
        last_rpt_time := st.last_rpt_time } := by
  simp only [pending, accumulate, hI, if_true, ge_iff_le]
  split_ifs <;> rfl

/-- A call with a non-zero sample made before the report is due: the sample is
accumulated and nothing else happens. -/
theorem report_data_in_window (k : Kconfig) (h : Header) (config : pixart_config)
    (t : Transport) (now : Int) (data : pixart_data) (st : report_statics)
    (hI : k.REPORT_INTERVAL_MIN > 0) (hr : data.ready = true)
    (he : t.motion_burst_read.1 = 0)
    (hxy : ¬ (burst_int16 t.motion_burst_read.2 h.DX_POS = 0 ∧
      burst_int16 t.motion_burst_read.2 h.DY_POS = 0))
    (hnow : is_uptime now) (hlr : is_uptime st.last_rpt_time)
    (hw : now - st.last_rpt_time < k.REPORT_INTERVAL_MIN) :
    paw3395_report_data k h config t now data st =
      (0, pending k h t now st, [Effect.lib_motion_burst_read]) :=
  report_data_held k h config t now data st hr he hxy
    ⟨hI, by rw [pending_last_rpt_time, wrap64_sub_uptime now _ hnow hlr]; exact hw⟩

/-- A call with a non-zero sample made when the report is due: the report stage runs on
the accumulator that holds the sample. -/
theorem report_data_after_window (k : Kconfig) (h : Header) (config : pixart_config)
    (t : Transport) (now : Int) (data : pixart_data) (st : report_statics)
    (hr : data.ready = true) (he : t.motion_burst_read.1 = 0)
    (hxy : ¬ (burst_int16 t.motion_burst_read.2 h.DX_POS = 0 ∧
      burst_int16 t.motion_burst_read.2 h.DY_POS = 0))
    (hnow : is_uptime now) (hlr : is_uptime st.last_rpt_time)
    (hw : k.REPORT_INTERVAL_MIN ≤ now - st.last_rpt_time) :
    paw3395_report_data k h config t now data st =
      (0, (report_stage k config now (pending k h t now st)).1,
        Effect.lib_motion_burst_read :: (report_stage k config now (pending k h t now st)).2) :=
  report_data_due k h config t now data st hr he hxy
    (by rw [pending_last_rpt_time, wrap64_sub_uptime now _ hnow hlr]; intro hc; omega)

/-- C7, as stated, fails. With a 10 ms interval and zero statics (last report time 0), the
samples X = 1 at 1 ms and X = 2 at 3 ms both fall inside the window and emit nothing. If the
next sample, X = 4, comes at 11 ms, the report carries 7, the sum of the three; if it comes
at 13 ms, the two samples are stale and discarded, and the report carries 4. No report
carries 3, the sum of the two samples. -/
theorem interval_two_samples_not_reported_alone :
    report_run ex_kconfig_10ms ex_header ex_config ⟨true, 3, 0⟩ ⟨0, 0, 0, 0⟩
        [(1, ex_sample 1 0), (3, ex_sample 2 0), (11, ex_sample 4 0)] =
      ([(1, 0, [Effect.lib_motion_burst_read]), (3, 0, [Effect.lib_motion_burst_read]),
        (11, 0, [Effect.lib_motion_burst_read, Effect.input_report 2 0 7 true])],
       ⟨0, 0, 11, 11⟩) ∧
    report_run ex_kconfig_10ms ex_header ex_config ⟨true, 3, 0⟩ ⟨0, 0, 0, 0⟩
        [(1, ex_sample 1 0), (3, ex_sample 2 0), (13, ex_sample 4 0)] =
      ([(1, 0, [Effect.lib_motion_burst_read]), (3, 0, [Effect.lib_motion_burst_read]),
        (13, 0, [Effect.lib_motion_burst_read, Effect.input_report 2 0 4 true])],
       ⟨0, 0, 13, 13⟩) := by
  decide

/-- C7, amended. With a minimum report interval `I > 0` on a ready device (times being
uptime values):
(1) a call with a non-zero sample and `now - last_rpt_time < I` emits no event, adds the
transformed sample to the accumulator (after the stale purge, if it applies) and leaves
`last_rpt_time` unchanged;
(2) in every run, any two emitting calls are at least `I` apart;
(3) for `I = 10` and an empty accumulator, take two non-zero samples 2 ms apart, the first
inside the window. If the second comes at or after `last_rpt_time + 10`, the first call
emits nothing and the second call emits the batch of their sum clamped to
`[-32768, 32767]`: one event per axis on which the clamped sum is not zero, X before Y,
hence no event at all when the two samples cancel on both axes. If both fall inside the
window, they emit nothing and leave their sum in the accumulator; a later non-zero sample
that comes less than 10 ms after the second one and no earlier than `last_rpt_time + 10`
is reported with them: that call emits the batch of the clamped sum of the three samples,
which again is empty when that sum is zero on both axes. -/
theorem report_interval_enforced (k : Kconfig) (h : Header) (config : pixart_config)
    (data : pixart_data) (hI : k.REPORT_INTERVAL_MIN > 0) (hr : data.ready = true) :
    (∀ (t : Transport) (now : Int) (st : report_statics),
      t.motion_burst_read.1 = 0 →
      ¬ (burst_int16 t.motion_burst_read.2 h.DX_POS = 0 ∧
        burst_int16 t.motion_burst_read.2 h.DY_POS = 0) →
      is_uptime now → is_uptime st.last_rpt_time →
      now - st.last_rpt_time < k.REPORT_INTERVAL_MIN →
      paw3395_report_data k h config t now data st =
        (0,
          { dx := wrap64 ((if k.REPORT_INTERVAL_MIN ≤ wrap64 (now - st.last_smp_time) then 0
              else st.dx) + (transformed_sample k h t).1)
            dy := wrap64 ((if k.REPORT_INTERVAL_MIN ≤ wrap64 (now - st.last_smp_time) then 0
              else st.dy) + (transformed_sample k h t).2)
            last_smp_time := now
            last_rpt_time := st.last_rpt_time },
          [Effect.lib_motion_burst_read])) ∧
    (∀ (cs : List (Int × Transport)) (st : report_statics),
      is_uptime st.last_rpt_time → (∀ c ∈ cs, is_uptime c.1) →
      ((report_run k h config data st cs).1.filter emits).Pairwise
        (fun a b => k.REPORT_INTERVAL_MIN ≤ b.1 - a.1)) ∧
    (∀ (t1 t2 t3 : Transport) (now1 now3 : Int) (st : report_statics),
      k.REPORT_INTERVAL_MIN = 10 → st.dx = 0 → st.dy = 0 →
      is_uptime st.last_rpt_time → is_uptime now1 → is_uptime (now1 + 2) →
      t1.motion_burst_read.1 = 0 → t2.motion_burst_read.1 = 0 →
      ¬ (burst_int16 t1.motion_burst_read.2 h.DX_POS = 0 ∧
        burst_int16 t1.motion_burst_read.2 h.DY_POS = 0) →
      ¬ (burst_int16 t2.motion_burst_read.2 h.DX_POS = 0 ∧
        burst_int16 t2.motion_burst_read.2 h.DY_POS = 0) →
      now1 - st.last_rpt_time < 10 →
      (10 ≤ now1 + 2 - st.last_rpt_time →
        (report_run k h config data st [(now1, t1), (now1 + 2, t2)]).1 =
          [(now1, 0, [Effect.lib_motion_burst_read]),
           (now1 + 2, 0, Effect.lib_motion_burst_read ::
            ((if max (-32768) (min 32767 ((transformed_sample k h t1).1 +
                (transformed_sample k h t2).1)) ≠ 0 then
              [Effect.input_report config.evt_type config.x_input_code
                (max (-32768) (min 32767 ((transformed_sample k h t1).1 +
                  (transformed_sample k h t2).1)))
                (decide (max (-32768) (min 32767 ((transformed_sample k h t1).2 +
                  (transformed_sample k h t2).2)) = 0))]
             else []) ++
            (if max (-32768) (min 32767 ((transformed_sample k h t1).2 +
                (transformed_sample k h t2).2)) ≠ 0 then
              [Effect.input_report config.evt_type config.y_input_code
                (max (-32768) (min 32767 ((transformed_sample k h t1).2 +
                  (transformed_sample k h t2).2))) true]
             else [])))]) ∧
      (now1 + 2 - st.last_rpt_time < 10 →
        report_run k h config data st [(now1, t1), (now1 + 2, t2)] =
          ([(now1, 0, [Effect.lib_motion_burst_read]),
            (now1 + 2, 0, [Effect.lib_motion_burst_read])],
           { dx := (transformed_sample k h t1).1 + (transformed_sample k h t2).1
             dy := (transformed_sample k h t1).2 + (transformed_sample k h t2).2
             last_smp_time := now1 + 2
             last_rpt_time := st.last_rpt_time }) ∧
        (is_uptime now3 → t3.motion_burst_read.1 = 0 →
          ¬ (burst_int16 t3.motion_burst_read.2 h.DX_POS = 0 ∧
            burst_int16 t3.motion_burst_read.2 h.DY_POS = 0) →
          now3 - (now1 + 2) < 10 → 10 ≤ now3 - st.last_rpt_time →
          (report_run k h config data st [(now1, t1), (now1 + 2, t2), (now3, t3)]).1 =
            [(now1, 0, [Effect.lib_motion_burst_read]),
             (now1 + 2, 0, [Effect.lib_motion_burst_read]),
             (now3, 0, Effect.lib_motion_burst_read ::
              ((if max (-32768) (min 32767 ((transformed_sample k h t1).1 +
                  (transformed_sample k h t2).1 + (transformed_sample k h t3).1)) ≠ 0 then
                [Effect.input_report config.evt_type config.x_input_code
                  (max (-32768) (min 32767 ((transformed_sample k h t1).1 +
                    (transformed_sample k h t2).1 + (transformed_sample k h t3).1)))
                  (decide (max (-32768) (min 32767 ((transformed_sample k h t1).2 +
                    (transformed_sample k h t2).2 + (transformed_sample k h t3).2)) = 0))]
               else []) ++
              (if max (-32768) (min 32767 ((transformed_sample k h t1).2 +
                  (transformed_sample k h t2).2 + (transformed_sample k h t3).2)) ≠ 0 then
                [Effect.input_report config.evt_type config.y_input_code
                  (max (-32768) (min 32767 ((transformed_sample k h t1).2 +
                    (transformed_sample k h t2).2 + (transformed_sample k h t3).2))) true]
               else [])))]))) := by
  refine ⟨?_, ?_, ?_⟩
  · intro t now st he hxy hnow hlr hw
    rw [report_data_in_window k h config t now data st hI hr he hxy hnow hlr hw,
      pending_eq k h t now st hI]
  · intro cs st hlr hcs
    exact (report_run_spacing k h config data hI cs st hlr hcs).2
  · intro t1 t2 t3 now1 now3 st hk hdx hdy hlr hn1 hn2 he1 he2 hxy1 hxy2 hw1
    have r1 := transformed_sample_range k h t1
    have r2 := transformed_sample_range k h t2
    have r3 := transformed_sample_range k h t3
    -- the first call holds its sample back
    have hs1 : pending k h t1 now1 st =
        ⟨(transformed_sample k h t1).1, (transformed_sample k h t1).2, now1,
          st.last_rpt_time⟩ := by
      rw [pending_eq k h t1 now1 st hI, hdx, hdy]
      simp only [ite_self]
      rw [wrap64_int16 _ r1.1.1 r1.1.2, wrap64_int16 _ r1.2.1 r1.2.2]
    have hc1 := report_data_in_window k h config t1 now1 data st hI hr he1 hxy1 hn1 hlr
      (by omega)
    rw [hs1] at hc1
    -- the second call adds its sample to the first
    have hs2 : pending k h t2 (now1 + 2)
        ⟨(transformed_sample k h t1).1, (transformed_sample k h t1).2, now1,
          st.last_rpt_time⟩ =
        ⟨(transformed_sample k h t1).1 + (transformed_sample k h t2).1,
          (transformed_sample k h t1).2 + (transformed_sample k h t2).2, now1 + 2,
          st.last_rpt_time⟩ := by
      rw [pending_eq k h t2 (now1 + 2) _ hI]
      simp only
      rw [wrap64_sub_uptime _ _ hn2 hn1, if_neg (by omega), if_neg (by omega),
        wrap64_id _ (by unfold is_int64; omega), wrap64_id _ (by unfold is_int64; omega)]
    constructor
    · intro hdue2
      have hc2 := report_data_after_window k h config t2 (now1 + 2) data
        ⟨(transformed_sample k h t1).1, (transformed_sample k h t1).2, now1, st.last_rpt_time⟩
        hr he2 hxy2 hn2 hlr (by simp only; omega)
      rw [hs2, report_stage_eq] at hc2
      simp only [report_run, hc1, hc2]
    · intro hw
      have hc2 := report_data_in_window k h config t2 (now1 + 2) data
        ⟨(transformed_sample k h t1).1, (transformed_sample k h t1).2, now1, st.last_rpt_time⟩
        hI hr he2 hxy2 hn2 hlr (by simp only; omega)
      rw [hs2] at hc2
      constructor
      · simp only [report_run, hc1, hc2]
      · intro hn3 he3 hxy3 hfresh hdue
        have hs3 : pending k h t3 now3
            ⟨(transformed_sample k h t1).1 + (transformed_sample k h t2).1,
              (transformed_sample k h t1).2 + (transformed_sample k h t2).2, now1 + 2,
              st.last_rpt_time⟩ =
            ⟨(transformed_sample k h t1).1 + (transformed_sample k h t2).1 +
                (transformed_sample k h t3).1,
              (transformed_sample k h t1).2 + (transformed_sample k h t2).2 +
                (transformed_sample k h t3).2, now3, st.last_rpt_time⟩ := by
          rw [pending_eq k h t3 now3 _ hI]
          simp only
          rw [wrap64_sub_uptime _ _ hn3 hn2, if_neg (by omega), if_neg (by omega),
            wrap64_id _ (by unfold is_int64; omega), wrap64_id _ (by unfold is_int64; omega)]
        have hc3 := report_data_after_window k h config t3 now3 data
          ⟨(transformed_sample k h t1).1 + (transformed_sample k h t2).1,
            (transformed_sample k h t1).2 + (transformed_sample k h t2).2, now1 + 2,
            st.last_rpt_time⟩
          hr he3 hxy3 hn3 hlr (by simp only; omega)
        rw [hs3, report_stage_eq] at hc3
        simp only [report_run, hc1, hc2, hc3]

/-- Witness of C7 (amended), with a 10 ms interval and zero statics: the sample X = 1 at
1 ms is held back; in a run of five samples the reports come at 10, 20 and 30 ms; and the
samples X = 1 at 1 ms, X = 2 at 3 ms, X = 4 at 11 ms give one report, X = 7, at 11 ms;
the samples X = 1 at 8 ms and X = 2 at 10 ms give one report, X = 3, at 10 ms; the samples
X = 1 at 8 ms and X = -1 at 10 ms cancel and give no event; the samples X = 32767 at 8 ms
and X = 32767 at 10 ms give one report, X = 32767, the clamp of 65534. -/
theorem report_interval_enforced_witness :
    paw3395_report_data ex_kconfig_10ms ex_header ex_config (ex_sample 1 0) 1
        ⟨true, 3, 0⟩ ⟨0, 0, 0, 0⟩ = (0, ⟨1, 0, 1, 0⟩, [Effect.lib_motion_burst_read]) ∧
    ((report_run ex_kconfig_10ms ex_header ex_config ⟨true, 3, 0⟩ ⟨0, 0, 0, 0⟩
        [(8, ex_sample 1 0), (10, ex_sample 2 0), (11, ex_sample 4 0), (20, ex_sample 5 0),
          (30, ex_sample 6 0)]).1.filter emits).Pairwise (fun a b => (10 : Int) ≤ b.1 - a.1) ∧
    report_run ex_kconfig_10ms ex_header ex_config ⟨true, 3, 0⟩ ⟨0, 0, 0, 0⟩
        [(1, ex_sample 1 0), (1 + 2, ex_sample 2 0)] =
      ([(1, 0, [Effect.lib_motion_burst_read]), (1 + 2, 0, [Effect.lib_motion_burst_read])],
        ⟨3, 0, 3, 0⟩) ∧
    (report_run ex_kconfig_10ms ex_header ex_config ⟨true, 3, 0⟩ ⟨0, 0, 0, 0⟩
        [(1, ex_sample 1 0), (1 + 2, ex_sample 2 0), (11, ex_sample 4 0)]).1 =
      [(1, 0, [Effect.lib_motion_burst_read]), (1 + 2, 0, [Effect.lib_motion_burst_read]),
        (11, 0, [Effect.lib_motion_burst_read, Effect.input_report 2 0 7 true])] ∧
    (report_run ex_kconfig_10ms ex_header ex_config ⟨true, 3, 0⟩ ⟨0, 0, 0, 0⟩
        [(8, ex_sample 1 0), (8 + 2, ex_sample 2 0)]).1 =
      [(8, 0, [Effect.lib_motion_burst_read]),
        (8 + 2, 0, [Effect.lib_motion_burst_read, Effect.input_report 2 0 3 true])] ∧
    (report_run ex_kconfig_10ms ex_header ex_config ⟨true, 3, 0⟩ ⟨0, 0, 0, 0⟩
        [(8, ex_sample 1 0), (8 + 2, ex_sample 65535 0)]).1 =
      [(8, 0, [Effect.lib_motion_burst_read]), (8 + 2, 0, [Effect.lib_motion_burst_read])] ∧
    (report_run ex_kconfig_10ms ex_header ex_config ⟨true, 3, 0⟩ ⟨0, 0, 0, 0⟩
        [(8, ex_sample 32767 0), (8 + 2, ex_sample 32767 0)]).1 =
      [(8, 0, [Effect.lib_motion_burst_read]),
        (8 + 2, 0, [Effect.lib_motion_burst_read, Effect.input_report 2 0 32767 true])] := by
  obtain ⟨p1, p2, p3⟩ := report_interval_enforced ex_kconfig_10ms ex_header ex_config
    ⟨true, 3, 0⟩ (by decide) rfl
  have a := p1 (ex_sample 1 0) 1 ⟨0, 0, 0, 0⟩ rfl (by decide) (by decide) (by decide)
    (by decide)
  have b := p2 [(8, ex_sample 1 0), (10, ex_sample 2 0), (11, ex_sample 4 0),
    (20, ex_sample 5 0), (30, ex_sample 6 0)] ⟨0, 0, 0, 0⟩ (by decide) (by decide)
  have c := (p3 (ex_sample 1 0) (ex_sample 2 0) (ex_sample 4 0) 1 11 ⟨0, 0, 0, 0⟩ rfl rfl rfl
    (by decide) (by decide) (by decide) rfl rfl (by decide) (by decide) (by decide)).2
    (by decide)
  have d := (p3 (ex_sample 1 0) (ex_sample 2 0) (ex_sample 4 0) 8 11 ⟨0, 0, 0, 0⟩ rfl rfl rfl
    (by decide) (by decide) (by decide) rfl rfl (by decide) (by decide) (by decide)).1
    (by decide)
  have e := (p3 (ex_sample 1 0) (ex_sample 65535 0) (ex_sample 4 0) 8 11 ⟨0, 0, 0, 0⟩
    rfl rfl rfl (by decide) (by decide) (by decide) rfl rfl (by decide) (by decide)
    (by decide)).1 (by decide)
  have f := (p3 (ex_sample 32767 0) (ex_sample 32767 0) (ex_sample 4 0) 8 11 ⟨0, 0, 0, 0⟩
    rfl rfl rfl (by decide) (by decide) (by decide) rfl rfl (by decide) (by decide)
    (by decide)).1 (by decide)
  exact ⟨a.trans (by decide), b, c.1.trans (by decide),
    (c.2 (by decide) rfl (by decide) (by decide) (by decide)).trans (by decide),
    d.trans (by decide), e.trans (by decide), f.trans (by decide)⟩

/-! ## The attribute entry point: the claims -/

/-- C13, as stated, fails: on a device that is not ready, a call on channel "all" with
some attribute other than CPI returns `-EBUSY`, not `-ENOTSUP`. -/
theorem attr_set_unknown_attr_not_ready :
    (7 : Nat) % 4294967296 ≠ ex_api.PAW3395_ATTR_CPI % 4294967296 ∧
    paw3395_attr_set ex_api ex_transport ⟨false, 1, 0⟩ ex_api.SENSOR_CHAN_ALL 7 ⟨800, 0⟩ =
      (-EBUSY, []) ∧
    (paw3395_attr_set ex_api ex_transport ⟨false, 1, 0⟩ ex_api.SENSOR_CHAN_ALL 7
      ⟨800, 0⟩).1 ≠ -ENOTSUP := by
  decide

/-- C13, amended: for every device state and every call of `paw3395_attr_set` whose channel
is not "all" or whose attribute is not CPI, no transport primitive is invoked; the call
returns `-ENOTSUP` when the channel is not "all" (ready or not) and when the device is
ready, and `-EBUSY` when the channel is "all" and the device is not ready. -/
theorem attr_set_unsupported (api : SensorApi) (t : Transport) (data : pixart_data)
    (chan attr : Nat) (val : sensor_value)
    (hbad : chan ≠ api.SENSOR_CHAN_ALL ∨
      attr % 4294967296 ≠ api.PAW3395_ATTR_CPI % 4294967296) :
    (paw3395_attr_set api t data chan attr val).2 = [] ∧
    (chan ≠ api.SENSOR_CHAN_ALL →
      (paw3395_attr_set api t data chan attr val).1 = -ENOTSUP) ∧
    (data.ready = true → (paw3395_attr_set api t data chan attr val).1 = -ENOTSUP) ∧
    (chan = api.SENSOR_CHAN_ALL → data.ready = false →
      (paw3395_attr_set api t data chan attr val).1 = -EBUSY) := by
  unfold paw3395_attr_set
  rcases hbad with hc | ha
  · simp [hc]
  · by_cases hc : chan = api.SENSOR_CHAN_ALL <;> by_cases hr : data.ready = true <;>
      simp [hc, hr, ha]

/-- Witness of C13 (amended): a wrong channel on a device that is not ready, and an
unknown attribute on channel "all", on a ready device and on one that is not ready. -/
theorem attr_set_unsupported_witness :
    paw3395_attr_set ex_api ex_transport ⟨false, 1, 0⟩ 58 32 ⟨800, 0⟩ = (-ENOTSUP, []) ∧
    paw3395_attr_set ex_api ex_transport ⟨true, 3, 0⟩ 59 7 ⟨800, 0⟩ = (-ENOTSUP, []) ∧
    paw3395_attr_set ex_api ex_transport ⟨false, 1, 0⟩ 59 7 ⟨800, 0⟩ = (-EBUSY, []) := by
  have a := attr_set_unsupported ex_api ex_transport ⟨false, 1, 0⟩ 58 32 ⟨800, 0⟩
    (Or.inl (by decide))
  have b := attr_set_unsupported ex_api ex_transport ⟨true, 3, 0⟩ 59 7 ⟨800, 0⟩
    (Or.inr (by decide))
  have c := attr_set_unsupported ex_api ex_transport ⟨false, 1, 0⟩ 59 7 ⟨800, 0⟩
    (Or.inr (by decide))
  exact ⟨Prod.ext (a.2.1 (by decide)) a.1, Prod.ext (b.2.2.1 rfl) b.1,
    Prod.ext (c.2.2.2 rfl rfl) c.1⟩

/-- C14: `paw3395_attr_set` makes a call (the only one it can make is `set_cpi`) if and
only if the channel is "all", the attribute is CPI and the device is ready; in that case
the call is `set_cpi` with the converted value and its result is returned as is; a call
on channel "all" on a device that is not ready returns `-EBUSY` and makes no call. -/
theorem attr_set_cpi_iff (api : SensorApi) (t : Transport) (data : pixart_data)
    (chan attr : Nat) (val : sensor_value) :
    ((paw3395_attr_set api t data chan attr val).2 ≠ [] ↔
      chan = api.SENSOR_CHAN_ALL ∧
        attr % 4294967296 = api.PAW3395_ATTR_CPI % 4294967296 ∧ data.ready = true) ∧
    (chan = api.SENSOR_CHAN_ALL →
      attr % 4294967296 = api.PAW3395_ATTR_CPI % 4294967296 → data.ready = true →
      paw3395_attr_set api t data chan attr val =
        (t.set_cpi (api.PAW3395_SVALUE_TO_CPI val),
          [Effect.lib_set_cpi (api.PAW3395_SVALUE_TO_CPI val)])) ∧
    (chan = api.SENSOR_CHAN_ALL → data.ready = false →
      paw3395_attr_set api t data chan attr val = (-EBUSY, [])) := by
  unfold paw3395_attr_set
  by_cases hc : chan = api.SENSOR_CHAN_ALL <;> by_cases hr : data.ready = true <;>
    by_cases ha : attr % 4294967296 = api.PAW3395_ATTR_CPI % 4294967296 <;>
    simp [hc, hr, ha]

/-- Witness of C14: the CPI attribute on channel "all", on a ready device whose `set_cpi`
succeeds, and on a device that is not ready. -/
theorem attr_set_cpi_iff_witness :
    paw3395_attr_set ex_api ex_transport ⟨true, 3, 0⟩ 59 32 ⟨800, 0⟩ =
      (0, [Effect.lib_set_cpi 800]) ∧
    paw3395_attr_set ex_api ex_transport ⟨false, 1, 0⟩ 59 32 ⟨800, 0⟩ = (-EBUSY, []) :=
  ⟨(attr_set_cpi_iff ex_api ex_transport ⟨true, 3, 0⟩ 59 32 ⟨800, 0⟩).2.1 rfl rfl rfl,
    (attr_set_cpi_iff ex_api ex_transport ⟨false, 1, 0⟩ 59 32 ⟨800, 0⟩).2.2 rfl rfl⟩

/-! ## The interrupt callbacks: the claim -/

/-- C15: whatever the outcome of the pipeline call, `paw3395_work_callback` is one call of
`paw3395_report_data` (its statics, its calls) followed by one request to enable the
interrupt line: on a device that is not ready the request is the only call, after a
failed burst read it follows the read, and it is always the last call.
`paw3395_gpio_callback` requests the line to be disabled and then submits the report task,
and makes no call to the sensor library. -/
theorem callbacks_bracket (k : Kconfig) (h : Header) (config : pixart_config)
    (t : Transport) (now : Int) (data : pixart_data) (st : report_statics) :
    paw3395_work_callback k h config t now data st =
      ((paw3395_report_data k h config t now data st).2.1,
        (paw3395_report_data k h config t now data st).2.2 ++
          [Effect.gpio_pin_interrupt_configure true]) ∧
    (paw3395_work_callback k h config t now data st).2.getLast? =
      some (Effect.gpio_pin_interrupt_configure true) ∧
    (data.ready = false →
      paw3395_work_callback k h config t now data st =
        (st, [Effect.gpio_pin_interrupt_configure true])) ∧
    (data.ready = true → t.motion_burst_read.1 ≠ 0 →
      paw3395_work_callback k h config t now data st =
        (st, [Effect.lib_motion_burst_read, Effect.gpio_pin_interrupt_configure true])) ∧
    (data.ready = true → t.motion_burst_read.1 = 0 →
      ∃ evs, (∀ e ∈ evs, e.is_event = true) ∧
        (paw3395_work_callback k h config t now data st).2 =
          Effect.lib_motion_burst_read :: evs ++
            [Effect.gpio_pin_interrupt_configure true]) ∧
    paw3395_gpio_callback t =
      [Effect.gpio_pin_interrupt_configure false, Effect.k_work_submit] ∧
    (∀ e ∈ paw3395_gpio_callback t, e.is_transport = false) := by
  have hw : paw3395_work_callback k h config t now data st =
      ((paw3395_report_data k h config t now data st).2.1,
        (paw3395_report_data k h config t now data st).2.2 ++
          [Effect.gpio_pin_interrupt_configure true]) := rfl
  refine ⟨hw, by rw [hw]; simp, ?_, ?_, ?_, rfl, ?_⟩
  · intro hr
    rw [hw, report_data_not_ready k h config t now data st hr]
    rfl
  · intro hr he
    rw [hw, report_data_read_error k h config t now data st hr he]
    rfl
  · intro hr he
    rw [hw]
    by_cases hxy : burst_int16 t.motion_burst_read.2 h.DX_POS = 0 ∧
        burst_int16 t.motion_burst_read.2 h.DY_POS = 0
    · rw [report_data_zero k h config t now data st hr he hxy.1 hxy.2]
      exact ⟨[], by simp, rfl⟩
    · by_cases hheld : k.REPORT_INTERVAL_MIN > 0 ∧
          wrap64 (now - (pending k h t now st).last_rpt_time) < k.REPORT_INTERVAL_MIN
      · rw [report_data_held k h config t now data st hr he hxy hheld]
        exact ⟨[], by simp, rfl⟩
      · rw [report_data_due k h config t now data st hr he hxy hheld, report_stage_eq]
        refine ⟨_, ?_, rfl⟩
        intro e he'
        simp only [List.mem_append] at he'
        rcases he' with he' | he' <;> split_ifs at he' <;> simp_all [Effect.is_event]
  · intro e he
    simp [paw3395_gpio_callback, paw3395_set_interrupt] at he
    rcases he with rfl | rfl <;> rfl

/-- Witness of C15: the three outcomes on the example transports. -/
theorem callbacks_bracket_witness :
    paw3395_work_callback ex_kconfig ex_header ex_config ex_transport 0 ⟨false, 1, 0⟩
        ⟨0, 0, 0, 0⟩ = (⟨0, 0, 0, 0⟩, [Effect.gpio_pin_interrupt_configure true]) ∧
    paw3395_work_callback ex_kconfig ex_header ex_config ex_transport_bad_read 0
        ⟨true, 3, 0⟩ ⟨0, 0, 0, 0⟩ =
      (⟨0, 0, 0, 0⟩,
        [Effect.lib_motion_burst_read, Effect.gpio_pin_interrupt_configure true]) ∧
    ∃ evs, (∀ e ∈ evs, e.is_event = true) ∧
      (paw3395_work_callback ex_kconfig ex_header ex_config ex_transport 0 ⟨true, 3, 0⟩
        ⟨0, 0, 0, 0⟩).2 =
        Effect.lib_motion_burst_read :: evs ++ [Effect.gpio_pin_interrupt_configure true] :=
  ⟨(callbacks_bracket ex_kconfig ex_header ex_config ex_transport 0 ⟨false, 1, 0⟩
      ⟨0, 0, 0, 0⟩).2.2.1 rfl,
    (callbacks_bracket ex_kconfig ex_header ex_config ex_transport_bad_read 0 ⟨true, 3, 0⟩
      ⟨0, 0, 0, 0⟩).2.2.2.1 rfl (by decide),
    (callbacks_bracket ex_kconfig ex_header ex_config ex_transport 0 ⟨true, 3, 0⟩
      ⟨0, 0, 0, 0⟩).2.2.2.2.1 rfl rfl⟩

/-! ## The activity listener: the claim -/

theorem set_performance_effects (config : pixart_config) (t : Transport) (enabled : Bool) :
    (paw3395_set_performance config t enabled).2 =
      if config.force_awake then [Effect.lib_set_performance enabled] else [] := by
  simp only [paw3395_set_performance]
  split_ifs <;> rfl

/-- The loop of `on_activity_state` from any start index. -/
theorem on_activity_state_loop_eq (enable : Bool) (ds : List (pixart_config × Transport)) :
    ∀ i, on_activity_state_loop enable i ds =
      ((ds.enumFrom i).filter (fun p => p.2.1.force_awake)).map
        (fun p => (p.1, Effect.lib_set_performance enable)) := by
  induction ds with
  | nil => intro i; rfl
  | cons d ds ih =>
    intro i
    simp only [on_activity_state_loop, set_performance_effects, ih (i + 1), List.enumFrom_cons,
      List.filter_cons]
    by_cases hf : d.1.force_awake = true <;> simp [hf]

/-- C12: for every registry and every activity-state notification, the calls made by
`on_activity_state` are exactly one `set_performance` call per registered device whose
configuration has `force_awake`, in registry order, each with
`enabled = (state == ZMK_ACTIVITY_ACTIVE)`; no call is made for a device without
`force_awake`; this holds whatever the primitive returns for any device, and the listener
returns 0. Without an activity-state event nothing is called. -/
theorem on_activity_state_calls (paw3395_devs : List (pixart_config × Transport))
    (state : zmk_activity_state) :
    on_activity_state paw3395_devs (some state) =
      (0, (paw3395_devs.enum.filter (fun p => p.2.1.force_awake)).map
        (fun p => (p.1, Effect.lib_set_performance
          (decide (state = zmk_activity_state.ZMK_ACTIVITY_ACTIVE))))) ∧
    on_activity_state paw3395_devs (some zmk_activity_state.ZMK_ACTIVITY_ACTIVE) =
      (0, (paw3395_devs.enum.filter (fun p => p.2.1.force_awake)).map
        (fun p => (p.1, Effect.lib_set_performance true))) ∧
    on_activity_state paw3395_devs none = (0, []) := by
  refine ⟨?_, ?_, rfl⟩
  · simp only [on_activity_state, on_activity_state_loop_eq, List.enum]
  · simp only [on_activity_state, on_activity_state_loop_eq, List.enum, decide_True]

/-! ## The axis transform at the bounds of `int16_t`: the claim -/

/-- The axis transform is the exact signed exchange of the sample as long as no inverted
axis carries -32768. -/
theorem axis_transform_exact (k : Kconfig) (x y : Int)
    (hx : -32768 ≤ x ∧ x ≤ 32767) (hy : -32768 ≤ y ∧ y ≤ 32767)
    (hix : k.INVERT_X = true → (if k.SWAP_XY then y else x) ≠ -32768)
    (hiy : k.INVERT_Y = true → (if k.SWAP_XY then x else y) ≠ -32768) :
    axis_transform k x y =
      ((if k.INVERT_X then -1 else 1) * (if k.SWAP_XY then y else x),
        (if k.INVERT_Y then -1 else 1) * (if k.SWAP_XY then x else y)) := by
  simp only [axis_transform, wrap16]
  by_cases hs : k.SWAP_XY = true <;> by_cases h1 : k.INVERT_X = true <;>
    by_cases h2 : k.INVERT_Y = true <;> simp [hs, h1, h2] at hix hiy ⊢ <;> omega

/-- C17, the code at the failing input: with invert-X configured, the raw sample
(-32768, 7) is transformed to (-32768, 7), not (32768, 7); a burst with these fields, with
the interval disabled and zero statics, adds -32768 to the X accumulator and is reported
as X = -32768. -/
theorem invert_int16_min_wraps :
    axis_transform ex_kconfig_invert_x (-32768) 7 = (-32768, 7) ∧
    axis_transform ex_kconfig_invert_x (-32768) 7 ≠ (-1 * -32768, 1 * 7) ∧
    burst_int16 (ex_sample 32768 7).motion_burst_read.2 ex_header.DX_POS = -32768 ∧
    (pending ex_kconfig_invert_x ex_header (ex_sample 32768 7) 0 ⟨0, 0, 0, 0⟩).dx = -32768 ∧
    paw3395_report_data ex_kconfig_invert_x ex_header ex_config (ex_sample 32768 7) 0
        ⟨true, 3, 0⟩ ⟨0, 0, 0, 0⟩ =
      (0, ⟨0, 0, 0, 0⟩,
        [Effect.lib_motion_burst_read, Effect.input_report 2 0 (-32768) false,
          Effect.input_report 2 1 7 true]) := by
  decide

/-! ## Statics shared by the instances: the claim -/

/-- C11, the code at the failing input: with a 10 ms interval, a held sample X = 1 of
device A at 1 ms is reported by device B at 10 ms, whose own sample is X = 2: B emits
X = 3 on its own input code. Without the call on A, the same call on B emits X = 2. -/
theorem statics_shared_between_devices :
    report_run_shared ex_kconfig_10ms ex_header ⟨0, 0, 0, 0⟩
        [(ex_device_a, 1, ex_sample 1 0), (ex_device_b, 10, ex_sample 2 0)] =
      ([(1, 0, [Effect.lib_motion_burst_read]),
        (10, 0, [Effect.lib_motion_burst_read, Effect.input_report 2 10 3 true])],
       ⟨0, 0, 10, 10⟩) ∧
    report_run_shared ex_kconfig_10ms ex_header ⟨0, 0, 0, 0⟩
        [(ex_device_b, 10, ex_sample 2 0)] =
      ([(10, 0, [Effect.lib_motion_burst_read, Effect.input_report 2 10 2 true])],
       ⟨0, 0, 10, 10⟩) ∧
    report_run_shared ex_kconfig_10ms ex_header ⟨0, 0, 0, 0⟩
        [(ex_device_a, 10, ex_sample 1 0), (ex_device_b, 12, ex_sample 2 0)] =
      ([(10, 0, [Effect.lib_motion_burst_read, Effect.input_report 2 0 1 true]),
        (12, 0, [Effect.lib_motion_burst_read])],
       ⟨2, 0, 12, 10⟩) ∧
    report_run_shared ex_kconfig_10ms ex_header ⟨0, 0, 0, 0⟩
        [(ex_device_b, 12, ex_sample 2 0)] =
      ([(12, 0, [Effect.lib_motion_burst_read, Effect.input_report 2 10 2 true])],
       ⟨0, 0, 12, 12⟩) := by
  refine ⟨?_, ?_, ?_, ?_⟩ <;> decide

/-! ## Reachable states of the initialisation: the claim -/

/-- What holds in every reachable state of the initialisation: the step is within the
table or at the end flag, and `init_work` is scheduled only with a step inside the table. -/
theorem init_reachable_inv (k : Kconfig) (p : Platform) (config : pixart_config)
    (s : Instance) (hs : init_reachable k p config s) :
    s.data.async_init_step ≤ ASYNC_INIT_STEP_COUNT ∧
      (s.init_work_scheduled = true → s.data.async_init_step < ASYNC_INIT_STEP_COUNT) := by
  induction hs with
  | boot err s hb =>
    simp only [Instance.boot] at hb
    split at hb
    · cases hb
    · simp only [Option.some.injEq, Prod.mk.injEq] at hb
      rw [← hb.2]
      simp [pixart_data.zero, ASYNC_INIT_STEP_POWER_UP, ASYNC_INIT_STEP_COUNT]
  | run t s s' _ hrun ih =>
    by_cases hsch : s.init_work_scheduled = true
    · have hlt := ih.2 hsch
      simp only [ASYNC_INIT_STEP_COUNT] at hlt ih ⊢
      obtain ⟨e, he⟩ := step_result_defined config t s.data.async_init_step (by omega)
      obtain ⟨s1, h1, -, hfail, hok⟩ :=
        run_init_work_step k config t s s.data.async_init_step e hsch rfl he
      rw [h1] at hrun
      cases hrun
      by_cases h0 : e = 0
      · obtain ⟨hstep, hlt2, heq2⟩ := hok h0
        refine ⟨by omega, fun hsc => ?_⟩
        rcases Nat.lt_or_ge s.data.async_init_step 2 with h2 | h2
        · omega
        · have := (heq2 (by omega)).2.1
          rw [this] at hsc
          cases hsc
      · obtain ⟨hstep, -, hsc, -⟩ := hfail h0
        refine ⟨by omega, fun hsc' => ?_⟩
        rw [hsc] at hsc'
        cases hsc'
    · have : s' = s := by
        simp only [Instance.run_init_work, hsch] at hrun
        simpa using hrun.symm
      rw [this]
      exact ih

/-- C18: `paw3395_init` indexes the delay table inside its bounds, and in every state
reachable from it by runs of the init handler: the step is PowerUp, FirmwareLoad,
Configure or the end flag; the handler is scheduled (hence executed) only with a step
inside the tables; a run of the work queue never indexes `async_init_fn` or
`async_init_delay` outside their bounds; and once the step is the end flag the handler is
not scheduled and every later run leaves the state as it is. -/
theorem init_sentinel_never_indexed (k : Kconfig) (p : Platform) (config : pixart_config)
    (s : Instance) (hs : init_reachable k p config s) :
    (∃ r, Instance.boot k p = some r) ∧
    s.data.async_init_step ≤ ASYNC_INIT_STEP_COUNT ∧
    (s.init_work_scheduled = true →
      s.data.async_init_step < ASYNC_INIT_STEP_COUNT ∧
      ∃ fn, async_init_fn s.data.async_init_step = some fn) ∧
    (∀ t, ∃ s', s.run_init_work k config t = some s') ∧
    (s.data.async_init_step = ASYNC_INIT_STEP_COUNT →
      s.init_work_scheduled = false ∧
      ∀ ts, init_chain k config ts s = some s) := by
  obtain ⟨hle, hsched⟩ := init_reachable_inv k p config s hs
  refine ⟨?_, hle, ?_, ?_, ?_⟩
  · simp only [Instance.boot, paw3395_init, pixart_data.zero, ASYNC_INIT_STEP_POWER_UP,
      async_init_delay]
    split_ifs <;> exact ⟨_, rfl⟩
  · intro hsch
    have hlt := hsched hsch
    refine ⟨hlt, ?_⟩
    simp only [ASYNC_INIT_STEP_COUNT] at hlt
    generalize s.data.async_init_step = i at hlt
    interval_cases i <;> exact ⟨_, rfl⟩
  · intro t
    by_cases hsch : s.init_work_scheduled = true
    · have hlt := hsched hsch
      simp only [ASYNC_INIT_STEP_COUNT] at hlt
      obtain ⟨e, he⟩ := step_result_defined config t s.data.async_init_step (by omega)
      obtain ⟨s1, h1, -⟩ :=
        run_init_work_step k config t s s.data.async_init_step e hsch rfl he
      exact ⟨s1, h1⟩
    · exact ⟨s, by simp [Instance.run_init_work, hsch]⟩
  · intro hdone
    have hns : s.init_work_scheduled = false := by
      by_contra hc
      have := hsched (by simpa using hc)
      omega
    exact ⟨hns, fun ts => init_chain_idle k config ts s hns⟩

/-- Witness of C18: the state right after a successful `paw3395_init`, and the state after
three successful runs of the handler (the end flag). -/
theorem init_sentinel_never_indexed_witness :
    (ex_init_state.init_work_scheduled = true →
      ex_init_state.data.async_init_step < ASYNC_INIT_STEP_COUNT ∧
      ∃ fn, async_init_fn ex_init_state.data.async_init_step = some fn) ∧
    (ex_done_state.init_work_scheduled = false ∧
      ∀ ts, init_chain ex_kconfig ex_config ts ex_done_state = some ex_done_state) := by
  have hb : init_reachable ex_kconfig ex_platform ex_config ex_init_state :=
    init_reachable.boot 0 _ (by decide)
  have h1 := init_reachable.run ex_transport _ _ hb
    (show ex_init_state.run_init_work ex_kconfig ex_config ex_transport = some _ from rfl)
  have h2 := init_reachable.run ex_transport _ _ h1 rfl
  have h3 : init_reachable ex_kconfig ex_platform ex_config ex_done_state :=
    init_reachable.run ex_transport _ _ h2 (by decide)
  exact ⟨(init_sentinel_never_indexed ex_kconfig ex_platform ex_config _ hb).2.2.1,
    (init_sentinel_never_indexed ex_kconfig ex_platform ex_config _ h3).2.2.2.2 (by decide)⟩

/-! ## The interrupt bridge: the claim -/

/-- Every call made by `paw3395_report_data` is the burst read or an event. -/
theorem report_data_effects (k : Kconfig) (h : Header) (config : pixart_config)
    (t : Transport) (now : Int) (data : pixart_data) (st : report_statics) :
    ∀ e ∈ (paw3395_report_data k h config t now data st).2.2,
      e = Effect.lib_motion_burst_read ∨ e.is_event = true := by
  by_cases hr : data.ready = true
  · by_cases he : t.motion_burst_read.1 = 0
    · by_cases hxy : burst_int16 t.motion_burst_read.2 h.DX_POS = 0 ∧
          burst_int16 t.motion_burst_read.2 h.DY_POS = 0
      · rw [report_data_zero k h config t now data st hr he hxy.1 hxy.2]
        simp
      · by_cases hheld : k.REPORT_INTERVAL_MIN > 0 ∧
            wrap64 (now - (pending k h t now st).last_rpt_time) < k.REPORT_INTERVAL_MIN
        · rw [report_data_held k h config t now data st hr he hxy hheld]
          simp
        · rw [report_data_due k h config t now data st hr he hxy hheld, report_stage_eq]
          intro e he'
          simp only [List.mem_cons, List.mem_append] at he'
          rcases he' with he' | he' | he'
          · exact Or.inl he'
          · split_ifs at he' <;> simp_all [Effect.is_event]
          · split_ifs at he' <;> simp_all [Effect.is_event]
    · rw [report_data_read_error k h config t now data st hr he]
      simp
  · rw [report_data_not_ready k h config t now data st (by simpa using hr)]
    simp

/-- Calls that are neither a pin configuration nor a submission leave the bridge alone. -/
theorem bridge_run_inert (t : Transport) (effs : List Effect) :
    ∀ b : Bridge, (∀ e ∈ effs, e = Effect.lib_motion_burst_read ∨ e.is_event = true) →
      Bridge.run t b effs = b := by
  induction effs with
  | nil => intro b _; rfl
  | cons e effs ih =>
    intro b hall
    have he := hall e (List.mem_cons_self _ _)
    have hb : Bridge.apply t b e = b := by
      rcases he with rfl | he
      · rfl
      · cases e <;> simp [Effect.is_event] at he
        rfl
    simp only [Bridge.run, List.foldl_cons, hb]
    exact ih b (fun e' he' => hall e' (List.mem_cons_of_mem _ he'))

/-- The bridge after a hardware edge whose pin configuration succeeds. -/
theorem hardware_edge_eq (t : Transport) (b : Bridge)
    (ht : 0 ≤ t.interrupt_configure false) (hb : b.interrupt_enabled = true) :
    b.hardware_edge t = some ⟨false, b.pending + 1⟩ := by
  simp [Bridge.hardware_edge, hb, Bridge.run, paw3395_gpio_callback, paw3395_set_interrupt,
    Bridge.apply, Int.not_lt.mpr ht]

/-- The bridge after a run of the task whose pin configuration succeeds. -/
theorem worker_eq (k : Kconfig) (h : Header) (config : pixart_config) (t : Transport)
    (now : Int) (data : pixart_data) (st : report_statics) (b : Bridge)
    (ht : 0 ≤ t.interrupt_configure true) (hb : 0 < b.pending) :
    b.worker k h config t now data st =
      some (⟨true, b.pending - 1⟩, (paw3395_report_data k h config t now data st).2.1) := by
  have hrun : Bridge.run t { b with pending := b.pending - 1 }
      ((paw3395_report_data k h config t now data st).2.2 ++
        [Effect.gpio_pin_interrupt_configure true]) = ⟨true, b.pending - 1⟩ := by
    have h1 := bridge_run_inert t (paw3395_report_data k h config t now data st).2.2
      { b with pending := b.pending - 1 } (report_data_effects k h config t now data st)
    simp only [Bridge.run, List.foldl_append] at h1 ⊢
    rw [h1]
    simp [Bridge.apply, Int.not_lt.mpr ht]
  simp only [Bridge.worker, hb, if_true, paw3395_work_callback, paw3395_set_interrupt, hrun]

/-- The two states of the bridge: idle with the line enabled, or one task pending with
the line disabled. -/
theorem bridge_reachable_inv (k : Kconfig) (h : Header) (config : pixart_config)
    (data : pixart_data) (b : Bridge) (hb : bridge_reachable k h config data b) :
    b = ⟨true, 0⟩ ∨ b = ⟨false, 1⟩ := by
  induction hb with
  | init_done => exact Or.inl rfl
  | edge t b b' _ ht hstep ih =>
    rcases ih with rfl | rfl
    · rw [hardware_edge_eq t _ ht rfl] at hstep
      cases hstep
      exact Or.inr rfl
    · simp [Bridge.hardware_edge] at hstep
  | work t now st st' b b' _ ht hstep ih =>
    rcases ih with rfl | rfl
    · simp [Bridge.worker] at hstep
    · rw [worker_eq k h config t now data st _ ht (by decide)] at hstep
      cases hstep
      exact Or.inl rfl

/-- C19, as stated, fails: the driver drops the result of `paw3395_set_interrupt`. When
the pin configuration fails, a hardware edge submits the task and leaves the line enabled,
so a second edge submits it again: two tasks pending with the interrupt enabled are
reachable. And when the enable request of the task fails, the run ends with the line
disabled, and no later edge is possible. -/
theorem bridge_unchecked_pin_configuration :
    Bridge.hardware_edge ex_transport_bad_irq ⟨true, 0⟩ = some ⟨true, 1⟩ ∧
    Bridge.hardware_edge ex_transport_bad_irq ⟨true, 1⟩ = some ⟨true, 2⟩ ∧
    (∃ b, bridge_reachable_any ex_kconfig ex_header ex_config ⟨true, 3, 0⟩ b ∧
      ¬ (b.pending ≤ 1 ∧ (0 < b.pending → b.interrupt_enabled = false))) ∧
    (∃ b, bridge_reachable_any ex_kconfig ex_header ex_config ⟨true, 3, 0⟩ b ∧
      Bridge.worker ex_kconfig ex_header ex_config ex_transport_bad_irq 0 ⟨true, 3, 0⟩
        ⟨0, 0, 0, 0⟩ b = some (⟨false, 0⟩, ⟨0, 0, 0, 0⟩) ∧
      ∀ t, Bridge.hardware_edge t ⟨false, 0⟩ = none) := by
  have h1 : Bridge.hardware_edge ex_transport_bad_irq ⟨true, 0⟩ = some ⟨true, 1⟩ := by decide
  have h2 : Bridge.hardware_edge ex_transport_bad_irq ⟨true, 1⟩ = some ⟨true, 2⟩ := by decide
  refine ⟨h1, h2, ⟨⟨true, 2⟩, ?_, by decide⟩, ⟨⟨false, 1⟩, ?_, by decide, ?_⟩⟩
  · exact bridge_reachable_any.edge ex_transport_bad_irq _ _
      (bridge_reachable_any.edge ex_transport_bad_irq _ _ bridge_reachable_any.init_done h1) h2
  · exact bridge_reachable_any.edge ex_transport _ _ bridge_reachable_any.init_done
      (by decide)
  · intro t
    simp [Bridge.hardware_edge]

/-- C19, amended: in every state of the interrupt bridge reachable while the pin
configuration calls succeed, at most one report task is pending; a pending task implies
that the interrupt line is disabled, so that no hardware edge can occur and submit a
second one; and a run of the task whose enable request succeeds ends with no task pending
and the line enabled, so that a later hardware edge is possible and submits exactly one
task. -/
theorem bridge_single_task (k : Kconfig) (h : Header) (config : pixart_config)
    (data : pixart_data) (b : Bridge) (hb : bridge_reachable k h config data b) :
    b.pending ≤ 1 ∧
    (0 < b.pending → b.interrupt_enabled = false ∧ ∀ t, b.hardware_edge t = none) ∧
    (∀ t now st b' st', 0 ≤ t.interrupt_configure true →
      b.worker k h config t now data st = some (b', st') →
      b'.pending = 0 ∧ b'.interrupt_enabled = true ∧
      st' = (paw3395_report_data k h config t now data st).2.1 ∧
      ∀ t2, 0 ≤ t2.interrupt_configure false →
        b'.hardware_edge t2 = some ⟨false, 1⟩) := by
  rcases bridge_reachable_inv k h config data b hb with rfl | rfl
  · refine ⟨by decide, fun hp => absurd hp (by decide), ?_⟩
    intro t now st b' st' _ hstep
    simp [Bridge.worker] at hstep
  · refine ⟨by decide, fun _ => ⟨rfl, fun t => by simp [Bridge.hardware_edge]⟩, ?_⟩
    intro t now st b' st' ht hstep
    rw [worker_eq k h config t now data st _ ht (by decide)] at hstep
    simp only [Option.some.injEq, Prod.mk.injEq] at hstep
    obtain ⟨rfl, rfl⟩ := hstep
    exact ⟨rfl, rfl, rfl, fun t2 ht2 => hardware_edge_eq t2 _ ht2 rfl⟩

/-- Witness of C19: after one hardware edge the bridge has one task pending and the line
disabled; the run of the task, on the example burst, leaves it idle with the line enabled
and a new edge is serviced. -/
theorem bridge_single_task_witness :
    (⟨false, 1⟩ : Bridge).pending ≤ 1 ∧
    ((⟨false, 1⟩ : Bridge).interrupt_enabled = false ∧
      ∀ t, (⟨false, 1⟩ : Bridge).hardware_edge t = none) ∧
    ((⟨true, 0⟩ : Bridge).pending = 0 ∧ (⟨true, 0⟩ : Bridge).interrupt_enabled = true ∧
      (⟨0, 0, 0, 0⟩ : report_statics) =
        (paw3395_report_data ex_kconfig ex_header ex_config ex_transport 0 ⟨true, 3, 0⟩
          ⟨0, 0, 0, 0⟩).2.1 ∧
      ∀ t2, 0 ≤ t2.interrupt_configure false →
        (⟨true, 0⟩ : Bridge).hardware_edge t2 = some ⟨false, 1⟩) := by
  have hb : bridge_reachable ex_kconfig ex_header ex_config ⟨true, 3, 0⟩ ⟨false, 1⟩ :=
    bridge_reachable.edge ex_transport ⟨true, 0⟩ ⟨false, 1⟩ bridge_reachable.init_done
      (by decide) (by decide)
  have w := bridge_single_task ex_kconfig ex_header ex_config ⟨true, 3, 0⟩ ⟨false, 1⟩ hb
  exact ⟨w.1, w.2.1 (by decide),
    w.2.2 ex_transport 0 ⟨0, 0, 0, 0⟩ ⟨true, 0⟩ ⟨0, 0, 0, 0⟩ (by decide) (by decide)⟩

/-! ## Interval disabled: the claim -/

theorem axis_transform_zero (k : Kconfig) : axis_transform k 0 0 = (0, 0) := by
  simp only [axis_transform, wrap16]
  split_ifs <;> rfl

/-- A non-zero raw sample stays non-zero through the axis transform. -/
theorem axis_transform_ne_zero (k : Kconfig) (x y : Int)
    (hx : -32768 ≤ x ∧ x ≤ 32767) (hy : -32768 ≤ y ∧ y ≤ 32767)
    (hxy : ¬ (x = 0 ∧ y = 0)) :
    ¬ ((axis_transform k x y).1 = 0 ∧ (axis_transform k x y).2 = 0) := by
  simp only [axis_transform, wrap16]
  intro hz
  apply hxy
  split_ifs at hz <;> constructor <;> omega

theorem pending_disabled (k : Kconfig) (h : Header) (t : Transport) (now : Int)
    (st : report_statics) (hI : k.REPORT_INTERVAL_MIN ≤ 0) :
    pending k h t now st =
      { st with dx := wrap64 (st.dx + (transformed_sample k h t).1)
                dy := wrap64 (st.dy + (transformed_sample k h t).2) } := by
  simp only [pending, accumulate]
  rw [if_neg (by omega)]

/-- With the interval disabled and zero accumulators, a call leaves the statics as they
are. -/
theorem report_data_disabled_statics (k : Kconfig) (h : Header) (config : pixart_config)
    (t : Transport) (now : Int) (data : pixart_data) (st : report_statics)
    (hI : k.REPORT_INTERVAL_MIN ≤ 0) (hdx : st.dx = 0) (hdy : st.dy = 0) :
    (paw3395_report_data k h config t now data st).2.1 = st := by
  obtain ⟨dx, dy, ls, lr⟩ := st
  simp only at hdx hdy
  subst hdx hdy
  by_cases hr : data.ready = true
  · by_cases he : t.motion_burst_read.1 = 0
    · by_cases hxy : burst_int16 t.motion_burst_read.2 h.DX_POS = 0 ∧
          burst_int16 t.motion_burst_read.2 h.DY_POS = 0
      · rw [report_data_zero k h config t now data _ hr he hxy.1 hxy.2]
      · rw [report_data_due k h config t now data _ hr he hxy (by intro hc; omega),
          report_stage_eq, pending_disabled k h t now _ hI]
        simp only [report_statics.mk.injEq, true_and]
        rw [if_neg (by intro hc; omega)]
    · rw [report_data_read_error k h config t now data _ hr he]
  · rw [report_data_not_ready k h config t now data _ (by simpa using hr)]

/-- C20: with the minimum report interval disabled and zero accumulators, every call of
`paw3395_report_data` ends with both accumulators at zero, and a call that reads a sample
other than (0, 0) on a ready device returns 0 and emits exactly the non-zero components of
its own transformed sample, unclamped, X before Y, at least one of them; so in every run
from zero accumulators each call starts from zero accumulators and the run ends with
them. -/
theorem interval_disabled_no_carry (k : Kconfig) (h : Header) (config : pixart_config)
    (data : pixart_data) (hI : k.REPORT_INTERVAL_MIN ≤ 0) :
    (∀ (t : Transport) (now : Int) (st : report_statics), st.dx = 0 → st.dy = 0 →
      ((paw3395_report_data k h config t now data st).2.1.dx = 0 ∧
        (paw3395_report_data k h config t now data st).2.1.dy = 0) ∧
      (data.ready = true → t.motion_burst_read.1 = 0 →
        ¬ (burst_int16 t.motion_burst_read.2 h.DX_POS = 0 ∧
          burst_int16 t.motion_burst_read.2 h.DY_POS = 0) →
        (paw3395_report_data k h config t now data st).1 = 0 ∧
        (paw3395_report_data k h config t now data st).2.2 =
          Effect.lib_motion_burst_read ::
            ((if (transformed_sample k h t).1 ≠ 0 then
              [Effect.input_report config.evt_type config.x_input_code
                (transformed_sample k h t).1 (decide ((transformed_sample k h t).2 = 0))]
             else []) ++
            (if (transformed_sample k h t).2 ≠ 0 then
              [Effect.input_report config.evt_type config.y_input_code
                (transformed_sample k h t).2 true]
             else [])) ∧
        events (paw3395_report_data k h config t now data st).2.2 ≠ [])) ∧
    (∀ (cs : List (Int × Transport)) (st : report_statics), st.dx = 0 → st.dy = 0 →
      (report_run k h config data st cs).2.dx = 0 ∧
      (report_run k h config data st cs).2.dy = 0 ∧
      ∀ e ∈ report_run_pre k h config data st cs, e.1.dx = 0 ∧ e.1.dy = 0) := by
  constructor
  · intro t now st hdx hdy
    have hst := report_data_disabled_statics k h config t now data st hI hdx hdy
    refine ⟨by rw [hst]; exact ⟨hdx, hdy⟩, ?_⟩
    intro hr he hxy
    have rng := transformed_sample_range k h t
    have hnz := axis_transform_ne_zero k _ _ (burst_int16_range t.motion_burst_read.2 h.DX_POS)
      (burst_int16_range t.motion_burst_read.2 h.DY_POS) hxy
    change ¬ ((transformed_sample k h t).1 = 0 ∧ (transformed_sample k h t).2 = 0) at hnz
    have hp : pending k h t now st =
        { st with dx := (transformed_sample k h t).1, dy := (transformed_sample k h t).2 } := by
      rw [pending_disabled k h t now st hI, hdx, hdy, wrap64_int16 _ rng.1.1 rng.1.2,
        wrap64_int16 _ rng.2.1 rng.2.2]
    have hcx : max (-32768) (min 32767 (transformed_sample k h t).1) =
        (transformed_sample k h t).1 := by omega
    have hcy : max (-32768) (min 32767 (transformed_sample k h t).2) =
        (transformed_sample k h t).2 := by omega
    rw [report_data_due k h config t now data st hr he hxy (by intro hc; omega),
      report_stage_eq, hp]
    simp only [hcx, hcy, true_and]
    rw [events_read_cons, events_batch]
    by_cases h1 : (transformed_sample k h t).1 = 0
    · have h2 : (transformed_sample k h t).2 ≠ 0 := fun h2 => hnz ⟨h1, h2⟩
      simp [h1, h2]
    · simp [h1]
  · intro cs
    induction cs with
    | nil =>
      intro st hdx hdy
      exact ⟨hdx, hdy, by simp [report_run_pre]⟩
    | cons c cs ih =>
      intro st hdx hdy
      have hst := report_data_disabled_statics k h config c.2 c.1 data st hI hdx hdy
      obtain ⟨i1, i2, i3⟩ := ih st hdx hdy
      simp only [report_run, report_run_pre, hst, List.mem_cons]
      refine ⟨i1, i2, ?_⟩
      rintro e (rfl | he)
      · exact ⟨hdx, hdy⟩
      · exact i3 e he

/-- Witness of C20: the example burst (5, -3) on a ready device with zero statics, and a
run of three calls (a sample, a failed read, a sample). -/
theorem interval_disabled_no_carry_witness :
    paw3395_report_data ex_kconfig ex_header ex_config ex_transport 0 ⟨true, 3, 0⟩
        ⟨0, 0, 0, 0⟩ =
      (0, ⟨0, 0, 0, 0⟩, [Effect.lib_motion_burst_read, Effect.input_report 2 0 5 false,
        Effect.input_report 2 1 (-3) true]) ∧
    (report_run ex_kconfig ex_header ex_config ⟨true, 3, 0⟩ ⟨0, 0, 0, 0⟩
      [(0, ex_transport), (1, ex_transport_bad_read), (2, ex_sample 4 0)]).2.dx = 0 ∧
    (report_run ex_kconfig ex_header ex_config ⟨true, 3, 0⟩ ⟨0, 0, 0, 0⟩
      [(0, ex_transport), (1, ex_transport_bad_read), (2, ex_sample 4 0)]).2.dy = 0 := by
  obtain ⟨p1, p2⟩ := interval_disabled_no_carry ex_kconfig ex_header ex_config ⟨true, 3, 0⟩
    (by decide)
  have a := p1 ex_transport 0 ⟨0, 0, 0, 0⟩ rfl rfl
  have b := a.2 rfl rfl (by decide)
  have c := p2 [(0, ex_transport), (1, ex_transport_bad_read), (2, ex_sample 4 0)]
    ⟨0, 0, 0, 0⟩ rfl rfl
  refine ⟨?_, c.1, c.2.1⟩
  exact Prod.ext b.1 (Prod.ext (by decide) (b.2.1.trans (by decide)))

/-! ## Total displacement: the claim -/

theorem axis_sum_nil (code : Nat) : axis_sum code [] = 0 := rfl

theorem axis_sum_read (code : Nat) (l : List Effect) :
    axis_sum code (Effect.lib_motion_burst_read :: l) = axis_sum code l := by
  simp [axis_sum]

/-- The per-axis sums of a batch of the report stage are the two values of the batch. -/
theorem axis_sum_batch (ty cx cy : Nat) (rx ry : Int) (hc : cx ≠ cy) :
    axis_sum cx ((if rx ≠ 0 then [Effect.input_report ty cx rx (decide (ry = 0))] else []) ++
        (if ry ≠ 0 then [Effect.input_report ty cy ry true] else [])) = rx ∧
    axis_sum cy ((if rx ≠ 0 then [Effect.input_report ty cx rx (decide (ry = 0))] else []) ++
        (if ry ≠ 0 then [Effect.input_report ty cy ry true] else [])) = ry := by
  have hc' : cy ≠ cx := fun e => hc e.symm
  by_cases hx : rx = 0 <;> by_cases hy : ry = 0 <;> simp [axis_sum, hx, hy, hc, hc']

theorem sample_taken_of_takes (k : Kconfig) (h : Header) (data : pixart_data)
    (t : Transport) (ht : takes_sample h data t) :
    sample_taken k h data t = transformed_sample k h t := by
  simp [sample_taken, ht.1, ht.2.1]

theorem sample_taken_of_not_takes (k : Kconfig) (h : Header) (data : pixart_data)
    (t : Transport) (ht : ¬ takes_sample h data t) :
    sample_taken k h data t = (0, 0) := by
  unfold sample_taken
  split_ifs with hc
  · have hz : burst_int16 t.motion_burst_read.2 h.DX_POS = 0 ∧
        burst_int16 t.motion_burst_read.2 h.DY_POS = 0 := by
      by_contra hn
      exact ht ⟨hc.1, hc.2, hn⟩
    rw [transformed_sample, hz.1, hz.2, axis_transform_zero]
  · rfl

/-- A call that does not take a sample in leaves the statics alone and emits nothing. -/
theorem report_data_of_not_takes (k : Kconfig) (h : Header) (config : pixart_config)
    (t : Transport) (now : Int) (data : pixart_data) (st : report_statics)
    (ht : ¬ takes_sample h data t) :
    (paw3395_report_data k h config t now data st).2.1 = st ∧
      axis_sum config.x_input_code (paw3395_report_data k h config t now data st).2.2 = 0 ∧
      axis_sum config.y_input_code (paw3395_report_data k h config t now data st).2.2 = 0 := by
  by_cases hr : data.ready = true
  · by_cases he : t.motion_burst_read.1 = 0
    · have hz : burst_int16 t.motion_burst_read.2 h.DX_POS = 0 ∧
          burst_int16 t.motion_burst_read.2 h.DY_POS = 0 := by
        by_contra hn
        exact ht ⟨hr, he, hn⟩
      rw [report_data_zero k h config t now data st hr he hz.1 hz.2]
      exact ⟨rfl, rfl, rfl⟩
    · rw [report_data_read_error k h config t now data st hr he]
      exact ⟨rfl, rfl, rfl⟩
  · rw [report_data_not_ready k h config t now data st (by simpa using hr)]
    exact ⟨rfl, rfl, rfl⟩

/-- The accounting of a run from any accumulator that leaves room for the samples of the
run: what is emitted plus what is left is what was there plus what came in. -/
theorem displacement_aux (k : Kconfig) (h : Header) (config : pixart_config)
    (data : pixart_data) (hI : k.REPORT_INTERVAL_MIN > 0)
    (hcodes : config.x_input_code ≠ config.y_input_code) :
    ∀ (cs : List (Int × Transport)) (st : report_statics),
      (-9223372036854775808 + 32768 * (cs.length : Int) ≤ st.dx ∧
        st.dx ≤ 9223372036854775807 - 32768 * (cs.length : Int)) →
      (-9223372036854775808 + 32768 * (cs.length : Int) ≤ st.dy ∧
        st.dy ≤ 9223372036854775807 - 32768 * (cs.length : Int)) →
      (∀ e ∈ report_run_pre k h config data st cs, takes_sample h data e.2.2 →
        wrap64 (e.2.1 - e.1.last_smp_time) < k.REPORT_INTERVAL_MIN ∨
          (e.1.dx = 0 ∧ e.1.dy = 0)) →
      (∀ e ∈ report_run_pre k h config data st cs, takes_sample h data e.2.2 →
        ¬ wrap64 (e.2.1 - e.1.last_rpt_time) < k.REPORT_INTERVAL_MIN →
        is_int16 (pending k h e.2.2 e.2.1 e.1).dx ∧
          is_int16 (pending k h e.2.2 e.2.1 e.1).dy) →
      (((report_run k h config data st cs).1.map
          (fun o => axis_sum config.x_input_code o.2.2)).sum +
          (report_run k h config data st cs).2.dx =
        st.dx + (cs.map (fun c => (sample_taken k h data c.2).1)).sum) ∧
      (((report_run k h config data st cs).1.map
          (fun o => axis_sum config.y_input_code o.2.2)).sum +
          (report_run k h config data st cs).2.dy =
        st.dy + (cs.map (fun c => (sample_taken k h data c.2).2)).sum) := by
  intro cs
  induction cs with
  | nil =>
    intro st _ _ _ _
    simp [report_run]
  | cons c cs ih =>
    intro st hbx hby hfresh hsat
    simp only [List.length_cons, Nat.cast_add, Nat.cast_one] at hbx hby
    have hfresh' : ∀ e ∈ report_run_pre k h config data
        (paw3395_report_data k h config c.2 c.1 data st).2.1 cs, takes_sample h data e.2.2 →
        wrap64 (e.2.1 - e.1.last_smp_time) < k.REPORT_INTERVAL_MIN ∨
          (e.1.dx = 0 ∧ e.1.dy = 0) :=
      fun e he => hfresh e (by simp only [report_run_pre, List.mem_cons]; exact Or.inr he)
    have hsat' : ∀ e ∈ report_run_pre k h config data
        (paw3395_report_data k h config c.2 c.1 data st).2.1 cs, takes_sample h data e.2.2 →
        ¬ wrap64 (e.2.1 - e.1.last_rpt_time) < k.REPORT_INTERVAL_MIN →
        is_int16 (pending k h e.2.2 e.2.1 e.1).dx ∧
          is_int16 (pending k h e.2.2 e.2.1 e.1).dy :=
      fun e he => hsat e (by simp only [report_run_pre, List.mem_cons]; exact Or.inr he)
    have hhead_fresh := hfresh (st, c.1, c.2)
      (by simp only [report_run_pre]; exact List.mem_cons_self _ _)
    have hhead_sat := hsat (st, c.1, c.2)
      (by simp only [report_run_pre]; exact List.mem_cons_self _ _)
    simp only at hhead_fresh hhead_sat
    simp only [report_run, List.map_cons, List.sum_cons]
    by_cases ht : takes_sample h data c.2
    · -- the call takes its sample in
      have rng := transformed_sample_range k h c.2
      have hacc := pending_acc k h c.2 c.1 st
      have hpx : (pending k h c.2 c.1 st).dx = st.dx + (transformed_sample k h c.2).1 := by
        rw [hacc.1]
        rcases hhead_fresh ht with hf | hz
        · rw [if_neg (by intro hc; omega), wrap64_id _ (by unfold is_int64; omega)]
        · rw [hz.1, ite_self, wrap64_id _ (by unfold is_int64; omega)]
      have hpy : (pending k h c.2 c.1 st).dy = st.dy + (transformed_sample k h c.2).2 := by
        rw [hacc.2]
        rcases hhead_fresh ht with hf | hz
        · rw [if_neg (by intro hc; omega), wrap64_id _ (by unfold is_int64; omega)]
        · rw [hz.2, ite_self, wrap64_id _ (by unfold is_int64; omega)]
      rw [sample_taken_of_takes k h data c.2 ht]
      by_cases hheld : k.REPORT_INTERVAL_MIN > 0 ∧
          wrap64 (c.1 - (pending k h c.2 c.1 st).last_rpt_time) < k.REPORT_INTERVAL_MIN
      · -- held back
        have hc := report_data_held k h config c.2 c.1 data st ht.1 ht.2.1 ht.2.2 hheld
        rw [hc] at hfresh' hsat' ⊢
        obtain ⟨ix, iy⟩ := ih (pending k h c.2 c.1 st) (by rw [hpx]; omega)
          (by rw [hpy]; omega) hfresh' hsat'
        simp only [axis_sum_read, axis_sum_nil]
        rw [hpx] at ix
        rw [hpy] at iy
        constructor <;> omega
      · -- reported
        have hc := report_data_due k h config c.2 c.1 data st ht.1 ht.2.1 ht.2.2 hheld
        rw [pending_last_rpt_time] at hheld
        have hs := hhead_sat ht (fun hlt => hheld ⟨hI, hlt⟩)
        unfold is_int16 at hs
        have hcx : max (-32768) (min 32767 (pending k h c.2 c.1 st).dx) =
            (pending k h c.2 c.1 st).dx := by omega
        have hcy : max (-32768) (min 32767 (pending k h c.2 c.1 st).dy) =
            (pending k h c.2 c.1 st).dy := by omega
        rw [report_stage_eq, hcx, hcy] at hc
        rw [hc] at hfresh' hsat' ⊢
        obtain ⟨ix, iy⟩ := ih _ (by simp only; omega) (by simp only; omega) hfresh' hsat'
        have hb := axis_sum_batch config.evt_type config.x_input_code config.y_input_code
          (pending k h c.2 c.1 st).dx (pending k h c.2 c.1 st).dy hcodes
        simp only [axis_sum_read, hb.1, hb.2]
        simp only at ix iy
        constructor <;> omega
    · -- the call takes nothing in
      obtain ⟨hst, hax, hay⟩ := report_data_of_not_takes k h config c.2 c.1 data st ht
      rw [hst] at hfresh' hsat'
      obtain ⟨ix, iy⟩ := ih st (by omega) (by omega) hfresh' hsat'
      rw [sample_taken_of_not_takes k h data c.2 ht, hst, hax, hay]
      constructor <;> omega

/-- C16, as stated, fails. With a 10 ms interval and zero statics, the sample X = 1 at 1 ms
is held back; the sample X = 4 at 13 ms comes 12 ms later, so the held sample is purged as
stale, and the report carries 4. Nothing is saturated and the times do not decrease, yet
what was emitted plus what is left is 4, and the samples add up to 5. -/
theorem stale_purge_loses_displacement :
    report_run ex_kconfig_10ms ex_header ex_config ⟨true, 3, 0⟩ ⟨0, 0, 0, 0⟩
        [(1, ex_sample 1 0), (13, ex_sample 4 0)] =
      ([(1, 0, [Effect.lib_motion_burst_read]),
        (13, 0, [Effect.lib_motion_burst_read, Effect.input_report 2 0 4 true])],
       ⟨0, 0, 13, 13⟩) ∧
    ((report_run ex_kconfig_10ms ex_header ex_config ⟨true, 3, 0⟩ ⟨0, 0, 0, 0⟩
        [(1, ex_sample 1 0), (13, ex_sample 4 0)]).1.map
        (fun o => axis_sum ex_config.x_input_code o.2.2)).sum +
      (report_run ex_kconfig_10ms ex_header ex_config ⟨true, 3, 0⟩ ⟨0, 0, 0, 0⟩
        [(1, ex_sample 1 0), (13, ex_sample 4 0)]).2.dx = 4 ∧
    ([(1, ex_sample 1 0), (13, ex_sample 4 0)].map
      (fun c => (sample_taken ex_kconfig_10ms ex_header ⟨true, 3, 0⟩ c.2).1)).sum = 5 := by
  refine ⟨?_, ?_, ?_⟩ <;> decide

/-- C16, amended. For every run of fewer than 2^47 calls of `paw3395_report_data` on a
single instance with a minimum report interval `I > 0` and distinct X and Y input codes,
starting from a zero accumulator, in which no call that takes a sample in discards a non-zero
accumulator as stale (the sample comes less than `I` after `last_smp_time`, or finds the
accumulator at zero) and no reported accumulator is saturated by the clamp: on each axis,
the sum of the values of all emitted events plus the accumulator left at the end equals
the sum of the transformed samples taken in. -/
theorem displacement_preserved (k : Kconfig) (h : Header) (config : pixart_config)
    (data : pixart_data) (cs : List (Int × Transport)) (st : report_statics)
    (hI : k.REPORT_INTERVAL_MIN > 0)
    (hcodes : config.x_input_code ≠ config.y_input_code)
    (hdx : st.dx = 0) (hdy : st.dy = 0) (hlen : cs.length < 140737488355328)
    (hfresh : ∀ e ∈ report_run_pre k h config data st cs, takes_sample h data e.2.2 →
      wrap64 (e.2.1 - e.1.last_smp_time) < k.REPORT_INTERVAL_MIN ∨
        (e.1.dx = 0 ∧ e.1.dy = 0))
    (hsat : ∀ e ∈ report_run_pre k h config data st cs, takes_sample h data e.2.2 →
      ¬ wrap64 (e.2.1 - e.1.last_rpt_time) < k.REPORT_INTERVAL_MIN →
      is_int16 (pending k h e.2.2 e.2.1 e.1).dx ∧
        is_int16 (pending k h e.2.2 e.2.1 e.1).dy) :
    (((report_run k h config data st cs).1.map
        (fun o => axis_sum config.x_input_code o.2.2)).sum +
        (report_run k h config data st cs).2.dx =
      (cs.map (fun c => (sample_taken k h data c.2).1)).sum) ∧
    (((report_run k h config data st cs).1.map
        (fun o => axis_sum config.y_input_code o.2.2)).sum +
        (report_run k h config data st cs).2.dy =
      (cs.map (fun c => (sample_taken k h data c.2).2)).sum) := by
  have hl : (cs.length : Int) < 140737488355328 := by exact_mod_cast hlen
  obtain ⟨ax, ay⟩ := displacement_aux k h config data hI hcodes cs st
    (by rw [hdx]; omega) (by rw [hdy]; omega) hfresh hsat
  rw [hdx] at ax
  rw [hdy] at ay
  exact ⟨by simpa using ax, by simpa using ay⟩

/-- Witness of C16 (amended): with a 10 ms interval and zero statics, the samples X = 1 at
8 ms, X = 2 at 10 ms, (X, Y) = (4, -2) at 11 ms and X = 5 at 20 ms are reported as X = 3 at
10 ms and (X, Y) = (9, -2) at 20 ms: 12 in all on X and -2 on Y, with nothing left. -/
theorem displacement_preserved_witness :
    (((report_run ex_kconfig_10ms ex_header ex_config ⟨true, 3, 0⟩ ⟨0, 0, 0, 0⟩
        [(8, ex_sample 1 0), (10, ex_sample 2 0), (11, ex_sample 4 65534),
          (20, ex_sample 5 0)]).1.map
        (fun o => axis_sum ex_config.x_input_code o.2.2)).sum +
        (report_run ex_kconfig_10ms ex_header ex_config ⟨true, 3, 0⟩ ⟨0, 0, 0, 0⟩
          [(8, ex_sample 1 0), (10, ex_sample 2 0), (11, ex_sample 4 65534),
            (20, ex_sample 5 0)]).2.dx = 1 + 2 + 4 + 5) ∧
    (((report_run ex_kconfig_10ms ex_header ex_config ⟨true, 3, 0⟩ ⟨0, 0, 0, 0⟩
        [(8, ex_sample 1 0), (10, ex_sample 2 0), (11, ex_sample 4 65534),
          (20, ex_sample 5 0)]).1.map
        (fun o => axis_sum ex_config.y_input_code o.2.2)).sum +
        (report_run ex_kconfig_10ms ex_header ex_config ⟨true, 3, 0⟩ ⟨0, 0, 0, 0⟩
          [(8, ex_sample 1 0), (10, ex_sample 2 0), (11, ex_sample 4 65534),
            (20, ex_sample 5 0)]).2.dy = 0 + 0 + -2 + 0) := by
  have w := displacement_preserved ex_kconfig_10ms ex_header ex_config ⟨true, 3, 0⟩
    [(8, ex_sample 1 0), (10, ex_sample 2 0), (11, ex_sample 4 65534), (20, ex_sample 5 0)]
    ⟨0, 0, 0, 0⟩ (by decide) (by decide) rfl rfl (by decide) (by decide) (by decide)
  exact ⟨w.1.trans (by decide), w.2.trans (by decide)⟩

end Paw3395
